import Mathlib

/-!
Verification development for the EcoLogic simulator core (TypeScript backend).

The simulation engine is shallowly embedded: JavaScript numbers are modelled as
exact rationals (all constants in the source are decimal literals and the engine
only adds, multiplies and compares them), JavaScript `Map`s are modelled as
insertion-ordered association lists (`AListV`), and the imperative propagation
loop of `services/propagate.ts` is modelled as a fuel-indexed recursion whose
fuel is the loop bound `maxDepth`.  Each definition mirrors one function of the
source; the theorems at the end of the file settle the specification claims.
-/

namespace EcoLogic

/-- Association list with JavaScript `Map` semantics: insertion order is
preserved, `setA` updates an existing key in place or appends a new binding. -/
abbrev AListV (α : Type) := List (String × α)

/-- `Map.get`: first binding of the key, if any. -/
def getA {α : Type} : AListV α → String → Option α
  | [], _ => none
  | (k, v) :: rest, key => if k = key then some v else getA rest key

/-- `Map.set`: update in place if the key is present, else append. -/
def setA {α : Type} : AListV α → String → α → AListV α
  | [], key, v => [(key, v)]
  | (k, w) :: rest, key, v =>
    if k = key then (k, v) :: rest else (k, w) :: setA rest key v

/-- `Math.abs` on the exact rationals. -/
def mathAbs (x : ℚ) : ℚ := if x < 0 then -x else x

/-- JavaScript `x || d` on an optional number: `undefined` and `0` are falsy. -/
def jsOr (v : Option ℚ) (d : ℚ) : ℚ :=
  match v with
  | some x => if x = 0 then d else x
  | none => d

/-- `types.ts` `CausalNode`.  The optional `delta`/`order` fields behave as
`0` everywhere in the source (every read treats `undefined` and `0` alike),
so they are modelled as total fields defaulting to `0`. -/
structure CausalNode where
  id : String
  label : String
  category : String
  unit : String
  description : String
  baselineValue : Option ℚ
  delta : ℚ
  order : ℕ
deriving DecidableEq

/-- `types.ts` `CausalEdge`. -/
structure CausalEdge where
  id : String
  source : String
  target : String
  sign : ℚ
  strength : ℚ
  confidence : ℚ
  rationale : String
  lagSteps : ℕ
deriving DecidableEq

/-- `types.ts` `CausalGraph`. -/
structure CausalGraph where
  nodes : List CausalNode
  edges : List CausalEdge
deriving DecidableEq

/-- `types.ts` `Shock`. -/
structure Shock where
  nodeId : String
  delta : ℚ
  unit : String
deriving DecidableEq

/-- `types.ts` `Assumption`. -/
structure Assumption where
  id : String
  label : String
  value : ℚ
  unit : String
  adjustable : Bool
  min : Option ℚ
  max : Option ℚ
  source : Option String
  confidence : ℚ
deriving DecidableEq

/-- `propagate.ts` `PropagationConfig`. -/
structure PropagationConfig where
  maxDepth : ℕ
  epsilon : ℚ
  decayFactor : ℚ
deriving DecidableEq

/-- `propagate.ts` `DEFAULT_CONFIG = { maxDepth: 5, epsilon: 0.001, decayFactor: 0.8 }`. -/
def DEFAULT_CONFIG : PropagationConfig :=
  { maxDepth := 5, epsilon := 1/1000, decayFactor := 8/10 }

/-- `types.ts` `NodeDelta` (one affected-node record inside a step). -/
structure NodeDelta where
  nodeId : String
  label : String
  previousValue : ℚ
  newValue : ℚ
  delta : ℚ
  contributingEdges : List String
deriving DecidableEq

/-- The `cumulativeDelta` record of `types.ts` `PropagationStep`. -/
structure CumulativeDelta where
  carbon : ℚ
  water : ℚ
  waste : ℚ
deriving DecidableEq

/-- `types.ts` `PropagationStep`. -/
structure PropagationStep where
  step : ℕ
  affectedNodes : List NodeDelta
  cumulativeDelta : CumulativeDelta
deriving DecidableEq

/-- `propagate.ts` `PropagationResult`. -/
structure PropagationResult where
  graph : CausalGraph
  steps : List PropagationStep
  nodeDeltas : AListV ℚ
  nodeOrders : AListV ℕ
deriving DecidableEq

/-- The mutable locals of the body of `propagate` (`nodeMap`, `nodeDeltas`,
`nodeOrders`, `steps`, `currentDeltas`), bundled for the loop recursion. -/
structure LoopState where
  nodeMap : AListV CausalNode
  nodeDeltas : AListV ℚ
  nodeOrders : AListV ℕ
  steps : List PropagationStep
  currentDeltas : AListV ℚ
deriving DecidableEq

/-- `propagate.ts` line 55: `graph.nodes.forEach(node => nodeMap.set(node.id,
{ ...node, delta: 0, order: 0 }))`. -/
def buildNodeMap (nodes : List CausalNode) : AListV CausalNode :=
  nodes.foldl (fun m node => setA m node.id { node with delta := 0, order := 0 }) []

/-- `propagate.ts` lines 57-62: group edges by `source` in input order. -/
def buildEdgesBySource (edges : List CausalEdge) : AListV (List CausalEdge) :=
  edges.foldl (fun m edge => setA m edge.source (((getA m edge.source).getD []) ++ [edge])) []

/-- `propagate.ts` lines 70-71 (also 233-234): `assumptions.forEach(a =>
assumptionMap.set(a.id, a.value))`. -/
def buildAssumptionMap (assumptions : List Assumption) : AListV ℚ :=
  assumptions.foldl (fun m a => setA m a.id a.value) []

/-- `propagate.ts` lines 75-85: apply one initial shock (step 0). -/
def applyShock (st : LoopState) (shock : Shock) : LoopState :=
  { st with
    currentDeltas := setA st.currentDeltas shock.nodeId shock.delta
    nodeDeltas := setA st.nodeDeltas shock.nodeId shock.delta
    nodeOrders := setA st.nodeOrders shock.nodeId 1
    nodeMap :=
      match getA st.nodeMap shock.nodeId with
      | some node => setA st.nodeMap shock.nodeId { node with delta := shock.delta, order := 1 }
      | none => st.nodeMap }

/-- `propagate.ts` lines 185-199: the `affectedNodes` list of a step record.
Ids absent from `nodeMap` are skipped (`if (!node) continue`). -/
def stepAffectedNodes (deltas : AListV ℚ) (nodeMap : AListV CausalNode)
    (contributingEdges : AListV (List String)) : List NodeDelta :=
  deltas.filterMap fun p =>
    match getA nodeMap p.1 with
    | none => none
    | some node =>
      some { nodeId := p.1, label := node.label,
             previousValue := node.baselineValue.getD 0,
             newValue := node.baselineValue.getD 0 + p.2,
             delta := p.2,
             contributingEdges := (getA contributingEdges p.1).getD [] }

/-- `propagate.ts` lines 201-213: cumulative per-category totals over the
current node map (`if (!node.delta) continue` skips zero deltas). -/
def cumulativeTotals (nodeMap : AListV CausalNode) : CumulativeDelta :=
  nodeMap.foldl
    (fun acc p =>
      if p.2.delta = 0 then acc
      else if p.2.category = "emissions" then { acc with carbon := acc.carbon + p.2.delta }
      else if p.2.category = "water" then { acc with water := acc.water + p.2.delta }
      else if p.2.category = "waste" then { acc with waste := acc.waste + p.2.delta }
      else acc)
    { carbon := 0, water := 0, waste := 0 }

/-- `propagate.ts` `createStep` (the unused `graph` parameter of the source is
dropped: the function body never reads it). -/
def createStep (stepNum : ℕ) (deltas : AListV ℚ) (nodeMap : AListV CausalNode)
    (contributingEdges : AListV (List String)) : PropagationStep :=
  { step := stepNum,
    affectedNodes := stepAffectedNodes deltas nodeMap contributingEdges,
    cumulativeDelta := cumulativeTotals nodeMap }

/-- `propagate.ts` lines 102-121: the body of the inner edge loop.  Edges with
`lagSteps > 0` are skipped; contributions below `epsilon` are dropped;
otherwise the contribution accumulates on the target and the edge id is
recorded. -/
def processEdge (cfg : PropagationConfig) (sourceDelta : ℚ)
    (acc : AListV ℚ × AListV (List String)) (edge : CausalEdge) :
    AListV ℚ × AListV (List String) :=
  if 0 < edge.lagSteps then acc
  else
    let targetDelta := sourceDelta * edge.sign * edge.strength * cfg.decayFactor
    if mathAbs targetDelta < cfg.epsilon then acc
    else
      (setA acc.1 edge.target (((getA acc.1 edge.target).getD 0) + targetDelta),
       setA acc.2 edge.target (((getA acc.2 edge.target).getD []) ++ [edge.id]))

/-- `propagate.ts` lines 96-122: process one `currentDeltas` entry.  Sources
below `epsilon` are skipped; otherwise every outgoing edge is processed. -/
def processSource (cfg : PropagationConfig) (ebs : AListV (List CausalEdge))
    (acc : AListV ℚ × AListV (List String)) (p : String × ℚ) :
    AListV ℚ × AListV (List String) :=
  if mathAbs p.2 < cfg.epsilon then acc
  else ((getA ebs p.1).getD []).foldl (processEdge cfg p.2) acc

/-- One iteration's `nextDeltas` and `contributingEdges` maps. -/
def computeNext (cfg : PropagationConfig) (ebs : AListV (List CausalEdge))
    (currentDeltas : AListV ℚ) : AListV ℚ × AListV (List String) :=
  currentDeltas.foldl (processSource cfg ebs) ([], [])

/-- `propagate.ts` lines 126-132: is any accumulated next delta at least
`epsilon` in magnitude? -/
def hasSignificantDelta (cfg : PropagationConfig) (nextDeltas : AListV ℚ) : Bool :=
  nextDeltas.any fun p => cfg.epsilon ≤ mathAbs p.2

/-- `propagate.ts` lines 137-152: fold one `nextDeltas` entry into the
cumulative maps and the node map.  `order` is assigned only when not yet
set. -/
def applyDelta (depth : ℕ) (st : LoopState) (p : String × ℚ) : LoopState :=
  { st with
    nodeDeltas := setA st.nodeDeltas p.1 (((getA st.nodeDeltas p.1).getD 0) + p.2)
    nodeOrders :=
      if (getA st.nodeOrders p.1).isSome then st.nodeOrders
      else setA st.nodeOrders p.1 (depth + 1)
    nodeMap :=
      match getA st.nodeMap p.1 with
      | some node =>
        setA st.nodeMap p.1
          { node with delta := node.delta + p.2,
                      order := if node.order = 0 then depth + 1 else node.order }
      | none => st.nodeMap }

/-- `propagate.ts` lines 91-162: the `for (depth = 1; depth <= maxDepth)` loop.
`fuel` counts the remaining iterations (`maxDepth - depth + 1`); the early
`break` when no contribution reaches `epsilon` is the `else` branch. -/
def propagateLoop (cfg : PropagationConfig) (ebs : AListV (List CausalEdge)) :
    ℕ → ℕ → LoopState → LoopState
  | _, 0, st => st
  | depth, fuel + 1, st =>
    let next := computeNext cfg ebs st.currentDeltas
    if hasSignificantDelta cfg next.1 then
      let st' := next.1.foldl (applyDelta depth) st
      propagateLoop cfg ebs (depth + 1) fuel
        { st' with
          steps := st'.steps ++ [createStep depth next.1 st'.nodeMap next.2],
          currentDeltas := next.1 }
    else st

/-- `propagate.ts` `propagate`.  The assumption map is built (line 70-71) but
never read afterwards, exactly as in the source. -/
def propagate (graph : CausalGraph) (shocks : List Shock) (assumptions : List Assumption)
    (cfg : PropagationConfig) : PropagationResult :=
  let nodeMap := buildNodeMap graph.nodes
  let ebs := buildEdgesBySource graph.edges
  let _assumptionMap := buildAssumptionMap assumptions
  let st0 := shocks.foldl applyShock
    { nodeMap := nodeMap, nodeDeltas := [], nodeOrders := [], steps := [], currentDeltas := [] }
  let st1 := { st0 with steps := [createStep 0 st0.currentDeltas st0.nodeMap []] }
  let stF := propagateLoop cfg ebs 1 cfg.maxDepth st1
  { graph := { nodes := stF.nodeMap.map Prod.snd, edges := graph.edges },
    steps := stF.steps,
    nodeDeltas := stF.nodeDeltas,
    nodeOrders := stF.nodeOrders }

/-- `propagate.ts` `createShocksFromScenario`.  The `baseline` and `change`
parameters are unused in the source as well; `assumptionMap.get(k) || d`
follows JavaScript falsiness via `jsOr`. -/
def createShocksFromScenario (scenarioType baseline change : String) (frequency : ℚ)
    (assumptions : List Assumption) : List Shock :=
  let am := buildAssumptionMap assumptions
  if scenarioType = "food_substitution" then
    let beefPerServing : ℚ := 25/100
    let chickenPerServing : ℚ := 2/10
    [ { nodeId := "beef_consumption", delta := -frequency * beefPerServing, unit := "kg/week" },
      { nodeId := "chicken_consumption", delta := frequency * chickenPerServing,
        unit := "kg/week" } ]
  else if scenarioType = "transport_substitution" then
    let _tripDistance := jsOr (getA am "trip_distance") 8
    [ { nodeId := "rideshare_trips", delta := -frequency, unit := "trips/week" },
      { nodeId := "bike_trips", delta := frequency, unit := "trips/week" } ]
  else if scenarioType = "plastic_ban" then
    let bagsPerWeek : ℚ := 10
    let adoptionRate := jsOr (getA am "adoption_rate") (8/10)
    [ { nodeId := "plastic_bag_use", delta := -bagsPerWeek * adoptionRate, unit := "bags/week" },
      { nodeId := "paper_bag_use", delta := bagsPerWeek * adoptionRate * (3/10),
        unit := "bags/week" },
      { nodeId := "reusable_bag_use", delta := bagsPerWeek * adoptionRate * (7/10),
        unit := "bags/week" } ]
  else if scenarioType = "reusable_adoption" then
    let bottlesPerWeek : ℚ := 7
    let adoptionRate := jsOr (getA am "adoption_rate") (3/10)
    [ { nodeId := "disposable_bottles", delta := -bottlesPerWeek * adoptionRate,
        unit := "bottles/week" },
      { nodeId := "reusable_bottle_use", delta := bottlesPerWeek * adoptionRate,
        unit := "fills/week" } ]
  else []

/-- `types.ts` `ParsedScenario`. -/
structure ParsedScenario where
  scenarioType : String
  baseline : String
  change : String
  frequency : ℚ
  frequencyUnit : String
  adoptionRate : ℚ
  geography : Option String
  timeframe : ℚ
  assumptions : List Assumption
deriving DecidableEq

/-- `types.ts` `GraphTemplate` node definition (`Omit<CausalNode, 'delta' | 'order'>`;
no template sets `baselineValue`). -/
structure TemplateNode where
  id : String
  label : String
  category : String
  unit : String
  description : String
deriving DecidableEq

/-- `types.ts` `GraphTemplate` edge definition (`Omit<CausalEdge, 'id'>`). -/
structure TemplateEdge where
  source : String
  target : String
  sign : ℚ
  strength : ℚ
  confidence : ℚ
  rationale : String
  lagSteps : ℕ
deriving DecidableEq

/-- `types.ts` `GraphTemplate`. -/
structure GraphTemplate where
  id : String
  name : String
  description : String
  shockNodes : List String
  nodes : List TemplateNode
  edges : List TemplateEdge
  defaultAssumptions : List Assumption
deriving DecidableEq

/-- `{ ...templateNode, delta: 0, order: 0 }` (`graphBuilder.ts` lines 36-40). -/
def nodeOfTemplate (tn : TemplateNode) : CausalNode :=
  { id := tn.id, label := tn.label, category := tn.category, unit := tn.unit,
    description := tn.description, baselineValue := none, delta := 0, order := 0 }

/-- `{ ...templateEdge, id: edge_<index>_<source>_<target> }` (`graphBuilder.ts`
lines 43-46). -/
def edgeOfTemplate (index : ℕ) (te : TemplateEdge) : CausalEdge :=
  { id := "edge_" ++ toString index ++ "_" ++ te.source ++ "_" ++ te.target,
    source := te.source, target := te.target, sign := te.sign, strength := te.strength,
    confidence := te.confidence, rationale := te.rationale, lagSteps := te.lagSteps }

/-- `Array.prototype.map((x, i) => f i x)` with explicit running index. -/
def mapWithIndex {α β : Type} (f : ℕ → α → β) : ℕ → List α → List β
  | _, [] => []
  | i, a :: rest => f i a :: mapWithIndex f (i + 1) rest

/-- `String.prototype.includes` on exact character lists: does the second list
start with the first? -/
def listStartsWith {α : Type} [DecidableEq α] : List α → List α → Bool
  | _, [] => true
  | [], _ :: _ => false
  | a :: as, b :: bs => if b = a then listStartsWith as bs else false

/-- Does the second list contain the first as a contiguous subsequence? -/
def listContainsSeq {α : Type} [DecidableEq α] (pat : List α) : List α → Bool
  | [] => listStartsWith [] pat
  | a :: rest => listStartsWith (a :: rest) pat || listContainsSeq pat rest

/-- `s.includes(pat)`. -/
def strIncludes (s pat : String) : Bool := listContainsSeq pat.toList s.toList

/-- The `sourceNode?.category === 'behavior'` test of `graphBuilder.ts` lines
66-67 (`Array.prototype.find` on the instantiated nodes; a missing source
yields `false`). -/
def sourceCategoryIsBehavior (nodes : List CausalNode) (src : String) : Bool :=
  match nodes.find? (fun n => n.id = src) with
  | some n => n.category = "behavior"
  | none => false

/-- `graphBuilder.ts` `applyGeographyAdjustments` (region-keyed multiplicative
edge tweaks; mutation modelled by returning the adjusted edge list). -/
def applyGeographyAdjustments (edges : List CausalEdge) (geography : String) :
    List CausalEdge :=
  let geoLower := geography.toLower
  let edges1 :=
    if strIncludes geoLower "california" || strIncludes geoLower "west coast" then
      edges.map fun e =>
        if strIncludes e.target "emissions" && strIncludes e.source "energy" then
          { e with strength := e.strength * (8/10),
                   rationale := e.rationale ++ " (adjusted for cleaner regional grid)" }
        else e
    else edges
  if strIncludes geoLower "midwest" then
    edges1.map fun e =>
      if strIncludes e.source "beef" && strIncludes e.target "transport" then
        { e with strength := e.strength * (7/10),
                 rationale := e.rationale ++ " (adjusted for regional production)" }
      else e
  else edges1

/-- `graphBuilder.ts` `applyScenarioAdjustments` (mutation of the edge array
modelled functionally; the node array is never mutated by it). -/
def applyScenarioAdjustments (nodes : List CausalNode) (edges : List CausalEdge)
    (scenario : ParsedScenario) : List CausalEdge :=
  let edges1 :=
    if scenario.scenarioType = "plastic_ban" ∨ scenario.scenarioType = "reusable_adoption" then
      edges.map fun e =>
        if sourceCategoryIsBehavior nodes e.source then
          { e with strength := e.strength * scenario.adoptionRate }
        else e
    else edges
  match scenario.geography with
  | some geo => applyGeographyAdjustments edges1 geo
  | none => edges1

/-- `graphBuilder.ts` `instantiateTemplate`. -/
def instantiateTemplate (template : GraphTemplate) (scenario : ParsedScenario) :
    CausalGraph :=
  let nodes := template.nodes.map nodeOfTemplate
  let edges := mapWithIndex edgeOfTemplate 0 template.edges
  { nodes := nodes, edges := applyScenarioAdjustments nodes edges scenario }

/-! ### Graph templates (`data/graphTemplates.ts`) -/

/-- Template 1: food substitution (beef to chicken). -/
def foodSubstitutionTemplate : GraphTemplate :=
  { id := "food_substitution",
    name := "Food Substitution",
    description := "Model the cascading effects of switching between protein sources",
    shockNodes := ["beef_consumption", "chicken_consumption"],
    nodes := [
      { id := "beef_consumption", label := "Beef Consumption", category := "behavior",
        unit := "kg/week", description := "Weekly beef intake by the individual or group" },
      { id := "chicken_consumption", label := "Chicken Consumption", category := "behavior",
        unit := "kg/week", description := "Weekly chicken intake by the individual or group" },
      { id := "beef_emissions", label := "Beef Production Emissions", category := "emissions",
        unit := "kg CO₂e/week",
        description := "Greenhouse gases from cattle farming, including methane" },
      { id := "chicken_emissions", label := "Chicken Production Emissions",
        category := "emissions", unit := "kg CO₂e/week",
        description := "Greenhouse gases from poultry farming" },
      { id := "beef_water", label := "Beef Water Footprint", category := "water",
        unit := "liters/week",
        description := "Water used in beef production including feed crops" },
      { id := "chicken_water", label := "Chicken Water Footprint", category := "water",
        unit := "liters/week",
        description := "Water used in chicken production including feed" },
      { id := "pasture_land", label := "Pasture Land Required", category := "resource",
        unit := "m²/week", description := "Grazing land needed for cattle" },
      { id := "feed_crop_land", label := "Feed Crop Land", category := "resource",
        unit := "m²/week", description := "Agricultural land for growing animal feed" },
      { id := "beef_demand", label := "Beef Market Demand", category := "market",
        unit := "relative", description := "Aggregate demand signal to beef industry" },
      { id := "chicken_demand", label := "Chicken Market Demand", category := "market",
        unit := "relative", description := "Aggregate demand signal to poultry industry" },
      { id := "cost_savings", label := "Cost Savings", category := "rebound",
        unit := "$/week", description := "Money saved from cheaper protein (chicken vs beef)" },
      { id := "rebound_spending", label := "Rebound Consumption", category := "rebound",
        unit := "kg CO₂e/week",
        description := "Additional emissions from spending saved money elsewhere" },
      { id := "packaging_waste", label := "Packaging Waste", category := "waste",
        unit := "kg/week", description := "Packaging materials from meat purchases" },
      { id := "deforestation_pressure", label := "Deforestation Pressure",
        category := "emissions", unit := "relative",
        description := "Pressure on forests for agricultural expansion" }],
    edges := [
      { source := "beef_consumption", target := "beef_emissions", sign := 1,
        strength := 95/100, confidence := 9/10,
        rationale := "Direct relationship: more beef consumed = more beef produced = more emissions",
        lagSteps := 0 },
      { source := "chicken_consumption", target := "chicken_emissions", sign := 1,
        strength := 95/100, confidence := 9/10,
        rationale := "Direct relationship: more chicken consumed = more chicken produced = more emissions",
        lagSteps := 0 },
      { source := "beef_consumption", target := "beef_water", sign := 1,
        strength := 95/100, confidence := 85/100,
        rationale := "Beef production is water-intensive (feed, drinking, processing)",
        lagSteps := 0 },
      { source := "chicken_consumption", target := "chicken_water", sign := 1,
        strength := 95/100, confidence := 85/100,
        rationale := "Chicken production requires water for birds and feed crops",
        lagSteps := 0 },
      { source := "beef_consumption", target := "beef_demand", sign := 1,
        strength := 7/10, confidence := 6/10,
        rationale := "Individual choices aggregate into market signals, but effect is diluted",
        lagSteps := 1 },
      { source := "chicken_consumption", target := "chicken_demand", sign := 1,
        strength := 7/10, confidence := 6/10,
        rationale := "Increased chicken consumption increases market demand",
        lagSteps := 1 },
      { source := "beef_consumption", target := "pasture_land", sign := 1,
        strength := 8/10, confidence := 75/100,
        rationale := "Cattle require significant grazing land", lagSteps := 0 },
      { source := "beef_consumption", target := "feed_crop_land", sign := 1,
        strength := 6/10, confidence := 7/10,
        rationale := "Feedlot cattle require crops; grass-fed less so", lagSteps := 0 },
      { source := "chicken_consumption", target := "feed_crop_land", sign := 1,
        strength := 85/100, confidence := 8/10,
        rationale := "Chickens are primarily grain-fed", lagSteps := 0 },
      { source := "pasture_land", target := "deforestation_pressure", sign := 1,
        strength := 1/2, confidence := 1/2,
        rationale := "More pasture demand can drive forest conversion, but depends on geography",
        lagSteps := 2 },
      { source := "feed_crop_land", target := "deforestation_pressure", sign := 1,
        strength := 4/10, confidence := 1/2,
        rationale := "Soy/grain expansion linked to deforestation in some regions",
        lagSteps := 2 },
      { source := "deforestation_pressure", target := "beef_emissions", sign := 1,
        strength := 3/10, confidence := 4/10,
        rationale := "Land use change emissions add to production emissions", lagSteps := 1 },
      { source := "beef_consumption", target := "cost_savings", sign := -1,
        strength := 8/10, confidence := 7/10,
        rationale := "Less beef spending = more money available", lagSteps := 0 },
      { source := "chicken_consumption", target := "cost_savings", sign := -1,
        strength := 3/10, confidence := 7/10,
        rationale := "Chicken costs offset some savings", lagSteps := 0 },
      { source := "cost_savings", target := "rebound_spending", sign := 1,
        strength := 1/2, confidence := 4/10,
        rationale := "Saved money may be spent on other goods with carbon footprint",
        lagSteps := 1 },
      { source := "beef_consumption", target := "packaging_waste", sign := 1,
        strength := 3/10, confidence := 6/10,
        rationale := "Meat purchases generate packaging waste", lagSteps := 0 },
      { source := "chicken_consumption", target := "packaging_waste", sign := 1,
        strength := 35/100, confidence := 6/10,
        rationale := "Chicken often has more packaging per kg", lagSteps := 0 }],
    defaultAssumptions := [
      { id := "beef_co2_per_kg", label := "Beef emissions intensity", value := 27,
        unit := "kg CO₂e/kg", adjustable := true, min := some 20, max := some 35,
        confidence := 8/10, source := some "PLACEHOLDER: lifecycle assessment studies" },
      { id := "chicken_co2_per_kg", label := "Chicken emissions intensity", value := 69/10,
        unit := "kg CO₂e/kg", adjustable := true, min := some 4, max := some 10,
        confidence := 8/10, source := some "PLACEHOLDER: lifecycle assessment studies" },
      { id := "beef_water_per_kg", label := "Beef water intensity", value := 15400,
        unit := "liters/kg", adjustable := true, min := some 10000, max := some 20000,
        confidence := 7/10, source := some "PLACEHOLDER: water footprint network" },
      { id := "chicken_water_per_kg", label := "Chicken water intensity", value := 4325,
        unit := "liters/kg", adjustable := true, min := some 3000, max := some 6000,
        confidence := 7/10, source := some "PLACEHOLDER: water footprint network" },
      { id := "beef_price_per_kg", label := "Beef price", value := 12, unit := "$/kg",
        adjustable := true, min := some 8, max := some 20, confidence := 9/10,
        source := some "PLACEHOLDER: market averages" },
      { id := "chicken_price_per_kg", label := "Chicken price", value := 5, unit := "$/kg",
        adjustable := true, min := some 3, max := some 8, confidence := 9/10,
        source := some "PLACEHOLDER: market averages" },
      { id := "rebound_rate", label := "Rebound spending rate", value := 3/10,
        unit := "fraction", adjustable := true, min := some 0, max := some 1,
        confidence := 4/10, source := some "PLACEHOLDER: economic studies" }] }

/-- Template 2: transport substitution (rideshare to bike). -/
def transportSubstitutionTemplate : GraphTemplate :=
  { id := "transport_substitution",
    name := "Transport Substitution",
    description := "Model the effects of switching between transportation modes",
    shockNodes := ["rideshare_trips", "bike_trips"],
    nodes := [
      { id := "rideshare_trips", label := "Rideshare Trips", category := "behavior",
        unit := "trips/week", description := "Weekly Uber/Lyft trips" },
      { id := "bike_trips", label := "Bike Trips", category := "behavior",
        unit := "trips/week", description := "Weekly bicycle trips" },
      { id := "vehicle_emissions", label := "Vehicle Emissions", category := "emissions",
        unit := "kg CO₂e/week",
        description := "Direct tailpipe emissions from rideshare vehicles" },
      { id := "bike_emissions", label := "Bike Lifecycle Emissions", category := "emissions",
        unit := "kg CO₂e/week",
        description := "Amortized emissions from bike manufacturing" },
      { id := "fuel_consumption", label := "Fuel Consumption", category := "energy",
        unit := "liters/week", description := "Gasoline used by rideshare vehicles" },
      { id := "calorie_expenditure", label := "Calorie Expenditure", category := "energy",
        unit := "kcal/week", description := "Human energy burned while cycling" },
      { id := "food_intake", label := "Additional Food Intake", category := "behavior",
        unit := "kcal/week", description := "Extra calories consumed to fuel cycling" },
      { id := "food_emissions", label := "Food-Related Emissions", category := "emissions",
        unit := "kg CO₂e/week", description := "Emissions from producing extra food" },
      { id := "rideshare_demand", label := "Rideshare Demand", category := "market",
        unit := "relative", description := "Market signal to rideshare companies" },
      { id := "deadhead_miles", label := "Deadhead Miles", category := "emissions",
        unit := "km/week", description := "Empty miles driven between pickups" },
      { id := "physical_activity", label := "Physical Activity", category := "behavior",
        unit := "minutes/week", description := "Exercise time from cycling" },
      { id := "health_benefit", label := "Health Co-benefit", category := "policy",
        unit := "QALY", description := "Quality-adjusted life years from exercise" },
      { id := "cost_savings", label := "Cost Savings", category := "rebound",
        unit := "$/week", description := "Money saved from not using rideshare" },
      { id := "rebound_travel", label := "Rebound Travel", category := "rebound",
        unit := "kg CO₂e/week",
        description := "Emissions from additional travel enabled by savings" },
      { id := "road_wear", label := "Road Wear", category := "resource",
        unit := "relative", description := "Infrastructure degradation from vehicle use" },
      { id := "vehicle_waste", label := "Vehicle Maintenance Waste", category := "waste",
        unit := "kg/week", description := "Tires, oil, parts from vehicle maintenance" }],
    edges := [
      { source := "rideshare_trips", target := "vehicle_emissions", sign := 1,
        strength := 95/100, confidence := 9/10,
        rationale := "Each trip burns fuel and emits CO2", lagSteps := 0 },
      { source := "rideshare_trips", target := "fuel_consumption", sign := 1,
        strength := 95/100, confidence := 95/100,
        rationale := "Direct relationship between trips and fuel", lagSteps := 0 },
      { source := "bike_trips", target := "bike_emissions", sign := 1,
        strength := 2/10, confidence := 7/10,
        rationale := "Minimal emissions from bike wear and amortized manufacturing",
        lagSteps := 0 },
      { source := "bike_trips", target := "calorie_expenditure", sign := 1,
        strength := 9/10, confidence := 85/100,
        rationale := "Cycling burns calories proportional to distance", lagSteps := 0 },
      { source := "calorie_expenditure", target := "food_intake", sign := 1,
        strength := 6/10, confidence := 1/2,
        rationale := "Some additional food intake to compensate for exercise",
        lagSteps := 0 },
      { source := "food_intake", target := "food_emissions", sign := 1,
        strength := 8/10, confidence := 6/10,
        rationale := "Food production has carbon footprint", lagSteps := 0 },
      { source := "rideshare_trips", target := "rideshare_demand", sign := 1,
        strength := 1/2, confidence := 1/2,
        rationale := "Individual trips contribute to aggregate demand", lagSteps := 1 },
      { source := "rideshare_trips", target := "deadhead_miles", sign := 1,
        strength := 4/10, confidence := 6/10,
        rationale := "Rideshare involves empty miles to reach passengers", lagSteps := 0 },
      { source := "deadhead_miles", target := "vehicle_emissions", sign := 1,
        strength := 8/10, confidence := 85/100,
        rationale := "Deadhead miles produce emissions too", lagSteps := 0 },
      { source := "bike_trips", target := "physical_activity", sign := 1,
        strength := 95/100, confidence := 95/100,
        rationale := "Cycling is exercise", lagSteps := 0 },
      { source := "physical_activity", target := "health_benefit", sign := 1,
        strength := 7/10, confidence := 6/10,
        rationale := "Regular exercise improves health outcomes", lagSteps := 2 },
      { source := "rideshare_trips", target := "cost_savings", sign := -1,
        strength := 9/10, confidence := 9/10,
        rationale := "Fewer rideshare trips = less spending", lagSteps := 0 },
      { source := "cost_savings", target := "rebound_travel", sign := 1,
        strength := 3/10, confidence := 3/10,
        rationale := "Some saved money may fund other carbon-intensive activities",
        lagSteps := 1 },
      { source := "rideshare_trips", target := "road_wear", sign := 1,
        strength := 6/10, confidence := 7/10,
        rationale := "Vehicle weight causes road degradation", lagSteps := 0 },
      { source := "rideshare_trips", target := "vehicle_waste", sign := 1,
        strength := 4/10, confidence := 6/10,
        rationale := "Vehicle use generates maintenance waste", lagSteps := 0 }],
    defaultAssumptions := [
      { id := "trip_distance", label := "Average trip distance", value := 8, unit := "km",
        adjustable := true, min := some 2, max := some 20, confidence := 7/10,
        source := some "PLACEHOLDER: urban mobility studies" },
      { id := "rideshare_co2_per_km", label := "Rideshare emissions", value := 21/100,
        unit := "kg CO₂e/km", adjustable := true, min := some (15/100), max := some (3/10),
        confidence := 8/10, source := some "PLACEHOLDER: vehicle efficiency data" },
      { id := "deadhead_ratio", label := "Deadhead ratio", value := 4/10, unit := "fraction",
        adjustable := true, min := some (2/10), max := some (6/10), confidence := 6/10,
        source := some "PLACEHOLDER: rideshare studies" },
      { id := "cycling_calories_per_km", label := "Cycling energy", value := 30,
        unit := "kcal/km", adjustable := true, min := some 20, max := some 50,
        confidence := 8/10, source := some "PLACEHOLDER: exercise physiology" },
      { id := "food_co2_per_kcal", label := "Food emissions", value := 1/1000,
        unit := "kg CO₂e/kcal", adjustable := true, min := some (5/10000),
        max := some (3/1000), confidence := 1/2, source := some "PLACEHOLDER: average diet" },
      { id := "rideshare_cost_per_km", label := "Rideshare cost", value := 15/10,
        unit := "$/km", adjustable := true, min := some (8/10), max := some 3,
        confidence := 8/10, source := some "PLACEHOLDER: market prices" }] }

/-- Template 3: single-use plastic ban. -/
def plasticBanTemplate : GraphTemplate :=
  { id := "plastic_ban",
    name := "Single-Use Plastic Ban",
    description := "Model the effects of banning single-use plastics in a region",
    shockNodes := ["plastic_bag_use", "paper_bag_use", "reusable_bag_use"],
    nodes := [
      { id := "plastic_bag_use", label := "Plastic Bag Use", category := "behavior",
        unit := "bags/week", description := "Single-use plastic bags consumed" },
      { id := "paper_bag_use", label := "Paper Bag Use", category := "behavior",
        unit := "bags/week", description := "Paper bags as substitutes" },
      { id := "reusable_bag_use", label := "Reusable Bag Use", category := "behavior",
        unit := "bags/week", description := "Reusable bag trips" },
      { id := "plastic_production_emissions", label := "Plastic Production Emissions",
        category := "emissions", unit := "kg CO₂e/week",
        description := "Emissions from manufacturing plastic bags" },
      { id := "paper_production_emissions", label := "Paper Production Emissions",
        category := "emissions", unit := "kg CO₂e/week",
        description := "Emissions from paper bag production" },
      { id := "reusable_production_emissions", label := "Reusable Bag Emissions",
        category := "emissions", unit := "kg CO₂e/week",
        description := "Amortized emissions from reusable bags" },
      { id := "paper_water_use", label := "Paper Production Water", category := "water",
        unit := "liters/week", description := "Water used in paper manufacturing" },
      { id := "cotton_water_use", label := "Cotton Bag Water", category := "water",
        unit := "liters/week",
        description := "Water for cotton cultivation (reusable bags)" },
      { id := "plastic_waste", label := "Plastic Waste", category := "waste",
        unit := "kg/week", description := "Plastic entering waste stream" },
      { id := "paper_waste", label := "Paper Waste", category := "waste",
        unit := "kg/week", description := "Paper entering waste stream" },
      { id := "ocean_plastic", label := "Ocean Plastic", category := "waste",
        unit := "kg/week", description := "Plastic leakage to ocean" },
      { id := "petroleum_demand", label := "Petroleum Demand", category := "resource",
        unit := "liters/week", description := "Oil used for plastic production" },
      { id := "forestry_demand", label := "Forestry Demand", category := "resource",
        unit := "m²/week", description := "Forest resources for paper" },
      { id := "plastic_industry", label := "Plastic Industry Revenue", category := "market",
        unit := "$/week", description := "Economic activity in plastic sector" },
      { id := "alternative_industry", label := "Alternative Industry Revenue",
        category := "market", unit := "$/week",
        description := "Economic activity in alternatives" },
      { id := "bag_forgetting", label := "Forgotten Bag Purchases", category := "rebound",
        unit := "bags/week", description := "Extra bags bought when reusables forgotten" },
      { id := "thicker_plastic", label := "Thicker Plastic Bags", category := "rebound",
        unit := "kg/week",
        description := "Heavier \"reusable\" plastic bags as workaround" }],
    edges := [
      { source := "plastic_bag_use", target := "plastic_production_emissions", sign := 1,
        strength := 95/100, confidence := 9/10,
        rationale := "More bags = more production = more emissions", lagSteps := 0 },
      { source := "paper_bag_use", target := "paper_production_emissions", sign := 1,
        strength := 95/100, confidence := 85/100,
        rationale := "Paper bag production has significant emissions", lagSteps := 0 },
      { source := "reusable_bag_use", target := "reusable_production_emissions", sign := 1,
        strength := 3/10, confidence := 7/10,
        rationale := "Amortized over many uses, per-trip emissions low", lagSteps := 0 },
      { source := "paper_bag_use", target := "paper_water_use", sign := 1,
        strength := 9/10, confidence := 8/10,
        rationale := "Paper production is water-intensive", lagSteps := 0 },
      { source := "reusable_bag_use", target := "cotton_water_use", sign := 1,
        strength := 1/2, confidence := 6/10,
        rationale := "Cotton bags have high water footprint amortized", lagSteps := 0 },
      { source := "plastic_bag_use", target := "plastic_waste", sign := 1,
        strength := 95/100, confidence := 95/100,
        rationale := "Single-use plastic becomes waste", lagSteps := 0 },
      { source := "paper_bag_use", target := "paper_waste", sign := 1,
        strength := 9/10, confidence := 9/10,
        rationale := "Paper bags become waste (but biodegradable)", lagSteps := 0 },
      { source := "plastic_waste", target := "ocean_plastic", sign := 1,
        strength := 1/10, confidence := 4/10,
        rationale := "Some plastic leaks to ocean; varies by waste management",
        lagSteps := 1 },
      { source := "plastic_bag_use", target := "petroleum_demand", sign := 1,
        strength := 8/10, confidence := 85/100,
        rationale := "Plastic derived from petroleum", lagSteps := 0 },
      { source := "paper_bag_use", target := "forestry_demand", sign := 1,
        strength := 7/10, confidence := 7/10,
        rationale := "Paper requires wood pulp", lagSteps := 0 },
      { source := "plastic_bag_use", target := "plastic_industry", sign := 1,
        strength := 8/10, confidence := 8/10,
        rationale := "Bag sales contribute to industry revenue", lagSteps := 0 },
      { source := "paper_bag_use", target := "alternative_industry", sign := 1,
        strength := 8/10, confidence := 8/10,
        rationale := "Paper bags create alternative market", lagSteps := 0 },
      { source := "reusable_bag_use", target := "alternative_industry", sign := 1,
        strength := 6/10, confidence := 7/10,
        rationale := "Reusable bags are one-time purchases", lagSteps := 0 },
      { source := "reusable_bag_use", target := "bag_forgetting", sign := 1,
        strength := 3/10, confidence := 1/2,
        rationale := "People sometimes forget reusable bags", lagSteps := 0 },
      { source := "bag_forgetting", target := "paper_bag_use", sign := 1,
        strength := 6/10, confidence := 6/10,
        rationale := "Forgotten bags lead to single-use purchases", lagSteps := 0 },
      { source := "plastic_bag_use", target := "thicker_plastic", sign := -1,
        strength := 2/10, confidence := 4/10,
        rationale := "Bans may shift to \"reusable\" thick plastic", lagSteps := 1 }],
    defaultAssumptions := [
      { id := "plastic_bag_co2", label := "Plastic bag emissions", value := 4/100,
        unit := "kg CO₂e/bag", adjustable := true, min := some (2/100), max := some (6/100),
        confidence := 8/10, source := some "PLACEHOLDER: LCA studies" },
      { id := "paper_bag_co2", label := "Paper bag emissions", value := 8/100,
        unit := "kg CO₂e/bag", adjustable := true, min := some (5/100), max := some (12/100),
        confidence := 75/100, source := some "PLACEHOLDER: LCA studies" },
      { id := "reusable_bag_co2", label := "Reusable bag emissions", value := 15/10,
        unit := "kg CO₂e/bag", adjustable := true, min := some (1/2), max := some 20,
        confidence := 6/10, source := some "PLACEHOLDER: varies by material" },
      { id := "reusable_bag_uses", label := "Reusable bag lifetime uses", value := 100,
        unit := "uses", adjustable := true, min := some 20, max := some 500,
        confidence := 1/2, source := some "PLACEHOLDER: consumer studies" },
      { id := "plastic_bag_weight", label := "Plastic bag weight", value := 6/1000,
        unit := "kg", adjustable := true, min := some (4/1000), max := some (1/100),
        confidence := 9/10, source := some "PLACEHOLDER: product specs" },
      { id := "ocean_leakage_rate", label := "Ocean leakage rate", value := 2/100,
        unit := "fraction", adjustable := true, min := some (5/1000), max := some (1/10),
        confidence := 3/10, source := some "PLACEHOLDER: waste management studies" }] }

/-- Template 4: reusable water bottle adoption. -/
def reusableBottleTemplate : GraphTemplate :=
  { id := "reusable_adoption",
    name := "Reusable Water Bottle Adoption",
    description := "Model the lifecycle effects of switching from disposable to reusable bottles",
    shockNodes := ["disposable_bottles", "reusable_bottle_use"],
    nodes := [
      { id := "disposable_bottles", label := "Disposable Bottles", category := "behavior",
        unit := "bottles/week",
        description := "Single-use plastic water bottles consumed" },
      { id := "reusable_bottle_use", label := "Reusable Bottle Use", category := "behavior",
        unit := "fills/week", description := "Times reusable bottle is filled" },
      { id := "pet_production", label := "PET Bottle Production", category := "emissions",
        unit := "kg CO₂e/week",
        description := "Emissions from manufacturing disposable bottles" },
      { id := "reusable_production", label := "Reusable Bottle Production",
        category := "emissions", unit := "kg CO₂e/week",
        description := "Amortized emissions from reusable bottle manufacturing" },
      { id := "bottled_water_extraction", label := "Water Extraction", category := "water",
        unit := "liters/week",
        description := "Water extracted for bottling (often more than bottle contains)" },
      { id := "washing_water", label := "Washing Water", category := "water",
        unit := "liters/week", description := "Water used to clean reusable bottles" },
      { id := "tap_water", label := "Tap Water Use", category := "water",
        unit := "liters/week",
        description := "Municipal water used to fill reusable bottles" },
      { id := "transportation_energy", label := "Transportation Energy", category := "energy",
        unit := "kWh/week", description := "Energy to transport bottled water" },
      { id := "refrigeration_energy", label := "Refrigeration Energy", category := "energy",
        unit := "kWh/week", description := "Energy to chill bottled water in stores" },
      { id := "plastic_bottle_waste", label := "Plastic Bottle Waste", category := "waste",
        unit := "kg/week", description := "Disposable bottles entering waste stream" },
      { id := "recycling_rate", label := "Recycling Diversion", category := "waste",
        unit := "kg/week", description := "Bottles successfully recycled" },
      { id := "landfill_waste", label := "Landfill Waste", category := "waste",
        unit := "kg/week", description := "Bottles going to landfill" },
      { id := "bottled_water_demand", label := "Bottled Water Demand", category := "market",
        unit := "$/week", description := "Market demand for bottled water" },
      { id := "reusable_bottle_market", label := "Reusable Bottle Market",
        category := "market", unit := "$/week", description := "Market for reusable bottles" },
      { id := "water_fountain_demand", label := "Water Fountain Demand", category := "policy",
        unit := "relative", description := "Demand for public water fountains" },
      { id := "cost_savings", label := "Cost Savings", category := "rebound",
        unit := "$/week", description := "Money saved vs buying bottled water" },
      { id := "convenience_effect", label := "Convenience Offset", category := "rebound",
        unit := "bottles/week",
        description := "Occasional bottled water purchases for convenience" }],
    edges := [
      { source := "disposable_bottles", target := "pet_production", sign := 1,
        strength := 95/100, confidence := 9/10,
        rationale := "Each bottle requires manufacturing", lagSteps := 0 },
      { source := "reusable_bottle_use", target := "reusable_production", sign := 1,
        strength := 15/100, confidence := 7/10,
        rationale := "Amortized over hundreds of uses", lagSteps := 0 },
      { source := "disposable_bottles", target := "bottled_water_extraction", sign := 1,
        strength := 95/100, confidence := 85/100,
        rationale := "Bottled water requires water extraction", lagSteps := 0 },
      { source := "reusable_bottle_use", target := "washing_water", sign := 1,
        strength := 6/10, confidence := 7/10,
        rationale := "Reusable bottles need washing", lagSteps := 0 },
      { source := "reusable_bottle_use", target := "tap_water", sign := 1,
        strength := 95/100, confidence := 95/100,
        rationale := "Reusable bottles filled with tap water", lagSteps := 0 },
      { source := "disposable_bottles", target := "transportation_energy", sign := 1,
        strength := 8/10, confidence := 8/10,
        rationale := "Bottled water is heavy and transported long distances",
        lagSteps := 0 },
      { source := "disposable_bottles", target := "refrigeration_energy", sign := 1,
        strength := 6/10, confidence := 7/10,
        rationale := "Store refrigeration for cold bottles", lagSteps := 0 },
      { source := "disposable_bottles", target := "plastic_bottle_waste", sign := 1,
        strength := 95/100, confidence := 95/100,
        rationale := "Disposable bottles become waste", lagSteps := 0 },
      { source := "plastic_bottle_waste", target := "recycling_rate", sign := 1,
        strength := 3/10, confidence := 1/2,
        rationale := "Some bottles are recycled", lagSteps := 0 },
      { source := "plastic_bottle_waste", target := "landfill_waste", sign := 1,
        strength := 7/10, confidence := 6/10,
        rationale := "Most bottles end in landfill", lagSteps := 0 },
      { source := "disposable_bottles", target := "bottled_water_demand", sign := 1,
        strength := 8/10, confidence := 8/10,
        rationale := "Purchases signal demand", lagSteps := 0 },
      { source := "reusable_bottle_use", target := "reusable_bottle_market", sign := 1,
        strength := 1/2, confidence := 6/10,
        rationale := "Adoption grows reusable market", lagSteps := 1 },
      { source := "reusable_bottle_use", target := "water_fountain_demand", sign := 1,
        strength := 4/10, confidence := 4/10,
        rationale := "More reusable users want fill stations", lagSteps := 2 },
      { source := "disposable_bottles", target := "cost_savings", sign := -1,
        strength := 9/10, confidence := 9/10,
        rationale := "Fewer purchases = savings", lagSteps := 0 },
      { source := "reusable_bottle_use", target := "convenience_effect", sign := 1,
        strength := 2/10, confidence := 4/10,
        rationale := "Sometimes buy bottled for convenience", lagSteps := 0 },
      { source := "convenience_effect", target := "disposable_bottles", sign := 1,
        strength := 8/10, confidence := 7/10,
        rationale := "Convenience purchases add to disposable use", lagSteps := 0 }],
    defaultAssumptions := [
      { id := "pet_bottle_co2", label := "PET bottle emissions", value := 82/1000,
        unit := "kg CO₂e/bottle", adjustable := true, min := some (5/100),
        max := some (15/100), confidence := 8/10,
        source := some "PLACEHOLDER: LCA studies" },
      { id := "reusable_bottle_co2", label := "Reusable bottle emissions", value := 25/10,
        unit := "kg CO₂e/bottle", adjustable := true, min := some 1, max := some 8,
        confidence := 6/10, source := some "PLACEHOLDER: varies by material" },
      { id := "reusable_bottle_lifetime", label := "Reusable bottle lifetime", value := 500,
        unit := "fills", adjustable := true, min := some 100, max := some 2000,
        confidence := 1/2, source := some "PLACEHOLDER: product lifespan studies" },
      { id := "bottle_water_ratio", label := "Water extraction ratio", value := 15/10,
        unit := "liters extracted per liter bottled", adjustable := true,
        min := some (12/10), max := some 3, confidence := 6/10,
        source := some "PLACEHOLDER: industry reports" },
      { id := "washing_water_per_wash", label := "Washing water", value := 1/2,
        unit := "liters/wash", adjustable := true, min := some (2/10), max := some 2,
        confidence := 7/10, source := some "PLACEHOLDER: household studies" },
      { id := "recycling_rate_value", label := "Recycling rate", value := 29/100,
        unit := "fraction", adjustable := true, min := some (1/10), max := some (9/10),
        confidence := 7/10, source := some "PLACEHOLDER: EPA data" },
      { id := "bottled_water_cost", label := "Bottled water cost", value := 15/10,
        unit := "$/bottle", adjustable := true, min := some (1/2), max := some 3,
        confidence := 9/10, source := some "PLACEHOLDER: market prices" }] }

/-- `graphTemplates` record keyed by scenario type. -/
def graphTemplatesLookup (scenarioType : String) : Option GraphTemplate :=
  if scenarioType = "food_substitution" then some foodSubstitutionTemplate
  else if scenarioType = "transport_substitution" then some transportSubstitutionTemplate
  else if scenarioType = "plastic_ban" then some plasticBanTemplate
  else if scenarioType = "reusable_adoption" then some reusableBottleTemplate
  else none

/-- `graphBuilder.ts` `buildGraph`: template lookup then instantiation; the
`throw` on an unknown scenario type is modelled as `none`. -/
def buildGraph (scenario : ParsedScenario) : Option CausalGraph :=
  (graphTemplatesLookup scenario.scenarioType).map
    (fun template => instantiateTemplate template scenario)

/-- `graphBuilder.ts` `scaleGraphByTimeframe`: multiply every delta (and any
truthy stored baseline) by the number of weeks; edges unchanged.  JavaScript
falsiness makes a zero delta map to `0` and a zero baseline to `undefined`. -/
def scaleGraphByTimeframe (graph : CausalGraph) (weeksSimulated : ℚ) : CausalGraph :=
  { nodes := graph.nodes.map fun node =>
      { node with
        delta := if node.delta ≠ 0 then node.delta * weeksSimulated else 0,
        baselineValue :=
          match node.baselineValue with
          | some bv => if bv ≠ 0 then some (bv * weeksSimulated) else none
          | none => none },
    edges := graph.edges }

/-! ### Aggregators (`services/aggregators.ts`) -/

/-- `types.ts` `MetricBreakdown`. -/
structure MetricBreakdown where
  nodeId : String
  label : String
  contribution : ℚ
  percentage : ℚ
deriving DecidableEq

/-- `types.ts` `MetricResult`. -/
structure MetricResult where
  value : ℚ
  unit : String
  confidence : ℚ
  breakdown : List MetricBreakdown
deriving DecidableEq

/-- `types.ts` `SimulationTotals`. -/
structure SimulationTotals where
  carbon : MetricResult
  water : MetricResult
  waste : MetricResult
deriving DecidableEq

/-- `types.ts` `ReboundEffect` (flattening the `Effect` base). -/
structure ReboundEffect where
  nodeId : String
  label : String
  delta : ℚ
  unit : String
  order : ℕ
  description : String
  offsetPercentage : ℚ
  mechanism : String
deriving DecidableEq

/-- `types.ts` `Driver`. -/
structure Driver where
  nodeId : String
  label : String
  influence : ℚ
  sensitivity : String
deriving DecidableEq

/-- JavaScript `x || d` on an optional natural (used for
`nodeOrders.get(id) || 2`). -/
def jsOrNat (v : Option ℕ) (d : ℕ) : ℕ :=
  match v with
  | some x => if x = 0 then d else x
  | none => d

/-- `aggregators.ts` `getNodeConfidence`: mean incoming-edge confidence, `0.5`
for nodes without incoming edges. -/
def getNodeConfidence (graph : CausalGraph) (nodeId : String) : ℚ :=
  let incomingEdges := graph.edges.filter fun e => e.target = nodeId
  if incomingEdges.length = 0 then 1/2
  else (incomingEdges.foldl (fun sum e => sum + e.confidence) 0) / (incomingEdges.length : ℚ)

/-- The accumulator of the single pass over `graph.nodes` in `calculateTotals`
(lines 21-69): three breakdown arrays, three running totals, and the
confidence sums and counts. -/
structure TotalsAcc where
  carbonBreakdown : List MetricBreakdown
  waterBreakdown : List MetricBreakdown
  wasteBreakdown : List MetricBreakdown
  totalCarbon : ℚ
  totalWater : ℚ
  totalWaste : ℚ
  carbonConfidenceSum : ℚ
  waterConfidenceSum : ℚ
  wasteConfidenceSum : ℚ
  carbonCount : ℕ
  waterCount : ℕ
  wasteCount : ℕ
deriving DecidableEq

/-- One iteration of the `for (const node of graph.nodes)` loop of
`calculateTotals` (`if (!node.delta || node.delta === 0) continue`). -/
def totalsStep (graph : CausalGraph) (acc : TotalsAcc) (node : CausalNode) : TotalsAcc :=
  if node.delta = 0 then acc
  else if node.category = "emissions" then
    { acc with
      totalCarbon := acc.totalCarbon + node.delta,
      carbonBreakdown := acc.carbonBreakdown ++
        [{ nodeId := node.id, label := node.label, contribution := node.delta,
           percentage := 0 }],
      carbonConfidenceSum := acc.carbonConfidenceSum + getNodeConfidence graph node.id,
      carbonCount := acc.carbonCount + 1 }
  else if node.category = "water" then
    { acc with
      totalWater := acc.totalWater + node.delta,
      waterBreakdown := acc.waterBreakdown ++
        [{ nodeId := node.id, label := node.label, contribution := node.delta,
           percentage := 0 }],
      waterConfidenceSum := acc.waterConfidenceSum + getNodeConfidence graph node.id,
      waterCount := acc.waterCount + 1 }
  else if node.category = "waste" then
    { acc with
      totalWaste := acc.totalWaste + node.delta,
      wasteBreakdown := acc.wasteBreakdown ++
        [{ nodeId := node.id, label := node.label, contribution := node.delta,
           percentage := 0 }],
      wasteConfidenceSum := acc.wasteConfidenceSum + getNodeConfidence graph node.id,
      wasteCount := acc.wasteCount + 1 }
  else acc

/-- `aggregators.ts` `calculatePercentages` (array mutation modelled by
returning the updated list): no-op when the total is `0`, else
`percentage = |contribution| / |total| * 100` for every entry. -/
def calculatePercentages (breakdown : List MetricBreakdown) (total : ℚ) :
    List MetricBreakdown :=
  if total = 0 then breakdown
  else breakdown.map fun item =>
    { item with percentage := mathAbs item.contribution / mathAbs total * 100 }

/-- Stable insert for a descending sort by a rational key: the new element is
placed before the first strictly smaller key, after all keys ≥ its own —
exactly the unique stable order of `Array.prototype.sort` with a numeric
key comparator. -/
def insertByKeyDesc {α : Type} (key : α → ℚ) (x : α) : List α → List α
  | [] => [x]
  | y :: ys => if key y ≤ key x then x :: y :: ys else y :: insertByKeyDesc key x ys

/-- Stable descending sort by a rational key (the unique stable result of
`Array.prototype.sort((a, b) => key b - key a)`). -/
def sortByKeyDesc {α : Type} (key : α → ℚ) (l : List α) : List α :=
  l.foldr (insertByKeyDesc key) []

/-- `aggregators.ts` `calculateTotals`. -/
def calculateTotals (graph : CausalGraph) : SimulationTotals :=
  let acc := graph.nodes.foldl (totalsStep graph)
    { carbonBreakdown := [], waterBreakdown := [], wasteBreakdown := [],
      totalCarbon := 0, totalWater := 0, totalWaste := 0,
      carbonConfidenceSum := 0, waterConfidenceSum := 0, wasteConfidenceSum := 0,
      carbonCount := 0, waterCount := 0, wasteCount := 0 }
  { carbon :=
      { value := acc.totalCarbon, unit := "kg CO₂e/week",
        confidence :=
          if 0 < acc.carbonCount then acc.carbonConfidenceSum / (acc.carbonCount : ℚ) else 0,
        breakdown := sortByKeyDesc (fun b => mathAbs b.contribution)
          (calculatePercentages acc.carbonBreakdown acc.totalCarbon) },
    water :=
      { value := acc.totalWater, unit := "liters/week",
        confidence :=
          if 0 < acc.waterCount then acc.waterConfidenceSum / (acc.waterCount : ℚ) else 0,
        breakdown := sortByKeyDesc (fun b => mathAbs b.contribution)
          (calculatePercentages acc.waterBreakdown acc.totalWater) },
    waste :=
      { value := acc.totalWaste, unit := "kg/week",
        confidence :=
          if 0 < acc.wasteCount then acc.wasteConfidenceSum / (acc.wasteCount : ℚ) else 0,
        breakdown := sortByKeyDesc (fun b => mathAbs b.contribution)
          (calculatePercentages acc.wasteBreakdown acc.totalWaste) } }

/-- Model of `Number.prototype.toFixed(2)` on the nonnegative exact rationals
it is applied to in this module (round half up to two decimal places). -/
def toFixed2 (x : ℚ) : String :=
  let n : ℤ := Rat.floor (x * 100 + 1/2)
  toString (n / 100) ++ "." ++ (if n % 100 < 10 then "0" else "") ++ toString (n % 100)

/-- `aggregators.ts` `describeEffect`. -/
def describeEffect (node : CausalNode) : String :=
  node.label ++ " " ++ (if 0 < node.delta then "increases" else "decreases") ++ " by "
    ++ toFixed2 (mathAbs node.delta) ++ " " ++ node.unit

/-- `aggregators.ts` `describeReboundMechanism`: fixed per-node-id explanation
table with a generic fallback. -/
def describeReboundMechanism (node : CausalNode) : String :=
  if node.id = "rebound_spending" then
    "Cost savings from the change may be spent on other goods and services with their own environmental footprint"
  else if node.id = "rebound_travel" then
    "Money saved on transportation may enable additional travel"
  else if node.id = "bag_forgetting" then
    "Reliance on reusable items can lead to single-use purchases when items are forgotten"
  else if node.id = "convenience_effect" then
    "Convenience sometimes overrides sustainable choices, leading to fallback purchases"
  else if node.id = "thicker_plastic" then
    "Bans on thin plastic bags may shift use to heavier \"reusable\" plastic bags that are rarely reused"
  else
    "Secondary behavioral response that partially offsets the primary benefit"

/-- `aggregators.ts` `extractReboundEffects`: nodes of category `rebound` with
truthy delta; `offsetPercentage = |delta / totalCarbon| * 100`, `0` on a zero
carbon total. -/
def extractReboundEffects (graph : CausalGraph) (nodeOrders : AListV ℕ)
    (totals : SimulationTotals) : List ReboundEffect :=
  graph.nodes.filterMap fun node =>
    if node.category = "rebound" ∧ node.delta ≠ 0 then
      let order := jsOrNat (getA nodeOrders node.id) 2
      some { nodeId := node.id, label := node.label, delta := node.delta,
             unit := node.unit, order := min order 3,
             description := describeEffect node,
             offsetPercentage :=
               if totals.carbon.value ≠ 0 then
                 mathAbs (node.delta / totals.carbon.value) * 100
               else 0,
             mechanism := describeReboundMechanism node }
    else none

/-- The influence computation inlined in `identifyTopDrivers` (lines 217-225):
`|delta / categoryTotal|`, weighting water by `0.5` and waste by `0.3`, and
`0` whenever the category total is `0`. -/
def computeInfluence (node : CausalNode) (totals : SimulationTotals) : ℚ :=
  if node.category = "emissions" ∧ totals.carbon.value ≠ 0 then
    mathAbs (node.delta / totals.carbon.value)
  else if node.category = "water" ∧ totals.water.value ≠ 0 then
    mathAbs (node.delta / totals.water.value) * (1/2)
  else if node.category = "waste" ∧ totals.waste.value ≠ 0 then
    mathAbs (node.delta / totals.waste.value) * (3/10)
  else 0

/-- `aggregators.ts` `describeSensitivity`: names the source of the strongest
incoming edge (`reduce` keeps the first maximum), with fallbacks. -/
def describeSensitivity (node : CausalNode) (graph : CausalGraph) : String :=
  match graph.edges.filter (fun e => e.target = node.id) with
  | [] => "Sensitive to initial scenario parameters (frequency, adoption rate)"
  | h :: t =>
    let strongestEdge := t.foldl (fun mx e => if mx.strength < e.strength then e else mx) h
    match graph.nodes.find? (fun n => n.id = strongestEdge.source) with
    | some sourceNode => "Most sensitive to changes in " ++ sourceNode.label.toLower
    | none => "Sensitive to upstream causal factors"

/-- `aggregators.ts` `identifyTopDrivers`: emissions/water/waste nodes with
nonzero delta, ranked by influence, top `limit`. -/
def identifyTopDrivers (graph : CausalGraph) (totals : SimulationTotals)
    (limit : ℕ) : List Driver :=
  let drivers := graph.nodes.filterMap fun node =>
    if node.delta = 0 then none
    else if node.category = "emissions" ∨ node.category = "water"
        ∨ node.category = "waste" then
      some { nodeId := node.id, label := node.label,
             influence := computeInfluence node totals,
             sensitivity := describeSensitivity node graph }
    else none
  (sortByKeyDesc (fun d => d.influence) drivers).take limit

/-! ### Basic lemmas about the map model and the loop state -/

theorem getA_setA_self {α : Type} (m : AListV α) (k : String) (v : α) :
    getA (setA m k v) k = some v := by
  induction m with
  | nil => simp [setA, getA]
  | cons p rest ih =>
    by_cases h : p.1 = k
    · simp [setA, getA, h]
    · simp [setA, getA, h, ih]

theorem getA_setA_ne {α : Type} (m : AListV α) (k k' : String) (v : α) (h : k' ≠ k) :
    getA (setA m k v) k' = getA m k' := by
  induction m with
  | nil => simp [setA, getA, Ne.symm h]
  | cons p rest ih =>
    rcases p with ⟨k₀, w⟩
    by_cases hp : k₀ = k
    · subst hp
      simp [setA, getA, Ne.symm h]
    · by_cases hq : k₀ = k'
      · simp [setA, getA, hp, hq, h]
      · simp [setA, getA, hp, hq, ih]

theorem foldl_applyDelta_steps (depth : ℕ) (nd : List (String × ℚ)) (st : LoopState) :
    (nd.foldl (applyDelta depth) st).steps = st.steps := by
  induction nd generalizing st with
  | nil => rfl
  | cons p rest ih => simp [List.foldl_cons, ih, applyDelta]

theorem foldl_applyShock_steps (shocks : List Shock) (st : LoopState) :
    (shocks.foldl applyShock st).steps = st.steps := by
  induction shocks generalizing st with
  | nil => rfl
  | cons s rest ih => simp only [List.foldl_cons, ih, applyShock]

theorem propagateLoop_steps_length_le (cfg : PropagationConfig)
    (ebs : AListV (List CausalEdge)) (fuel depth : ℕ) (st : LoopState) :
    (propagateLoop cfg ebs depth fuel st).steps.length ≤ st.steps.length + fuel := by
  induction fuel generalizing depth st with
  | zero => simp [propagateLoop]
  | succ fuel ih =>
    rw [propagateLoop]
    by_cases h : hasSignificantDelta cfg (computeNext cfg ebs st.currentDeltas).1
    · simp only [h, if_true]
      refine le_trans (ih _ _) ?_
      simp [foldl_applyDelta_steps]
      omega
    · simp only [h, if_false, Bool.false_eq_true]
      omega

/-! ### Claim theorems -/

/-- C4: `propagate` terminates on every input (it is a total function of its
arguments, defined by recursion on the `maxDepth` fuel), and its step trace
holds at most `maxDepth + 1` records — at most `6` with the default
configuration (`maxDepth = 5`). -/
theorem propagate_steps_length_le (g : CausalGraph) (shocks : List Shock)
    (A : List Assumption) (cfg : PropagationConfig) :
    (propagate g shocks A cfg).steps.length ≤ cfg.maxDepth + 1 ∧
    (propagate g shocks A DEFAULT_CONFIG).steps.length ≤ 6 := by
  constructor
  · show (propagateLoop cfg _ 1 cfg.maxDepth _).steps.length ≤ cfg.maxDepth + 1
    refine le_trans (propagateLoop_steps_length_le _ _ _ _ _) ?_
    simp [foldl_applyShock_steps]
    omega
  · show (propagateLoop DEFAULT_CONFIG _ 1 DEFAULT_CONFIG.maxDepth _).steps.length ≤ 6
    refine le_trans (propagateLoop_steps_length_le _ _ _ _ _) ?_
    simp [foldl_applyShock_steps, DEFAULT_CONFIG]

/-- C10: the result of `propagate` does not depend on the `assumptions`
argument — the assumption lookup map is built (line 70-71 of `propagate.ts`)
but never read, so any two assumption lists give definitionally equal
results. -/
theorem propagate_ignores_assumptions (g : CausalGraph) (shocks : List Shock)
    (cfg : PropagationConfig) (A1 A2 : List Assumption) :
    propagate g shocks A1 cfg = propagate g shocks A2 cfg := rfl

/-- The structured scenario for "substitute beef twice a week", as produced by
the parser defaults (`frequency = 2`, one-week timeframe, no geography). -/
def foodScenario : ParsedScenario :=
  { scenarioType := "food_substitution", baseline := "beef", change := "chicken",
    frequency := 2, frequencyUnit := "week", adoptionRate := 1, geography := none,
    timeframe := 1, assumptions := foodSubstitutionTemplate.defaultAssumptions }

/-- The shocks of the concrete food-substitution scenario. -/
def foodShocks : List Shock :=
  createShocksFromScenario "food_substitution" "beef" "chicken" 2
    foodSubstitutionTemplate.defaultAssumptions

/-- The propagation result of the concrete food-substitution scenario under the
default configuration. -/
def foodResult : PropagationResult :=
  propagate ((buildGraph foodScenario).getD { nodes := [], edges := [] }) foodShocks
    foodSubstitutionTemplate.defaultAssumptions DEFAULT_CONFIG

set_option maxHeartbeats 4000000 in
/-- C1: the food-substitution scenario at frequency 2/week shocks
`beef_consumption` by `-2 * 0.25 = -0.5` kg/week; propagating over the
food-substitution template graph with the default configuration, step 1
credits `beef_emissions` with `-0.5 * 1 * 0.95 * 0.8 = -0.38` through the
`beef_consumption → beef_emissions` edge (sign `1`, strength `0.95`), and
`beef_emissions` gets order `2`. -/
theorem food_substitution_concrete_scenario :
    (buildGraph foodScenario).isSome = true
    ∧ foodShocks.head? = some
        { nodeId := "beef_consumption", delta := -(2 * (25/100)), unit := "kg/week" }
    ∧ (-(2 : ℚ) * (25/100)) = -1/2
    ∧ ((-1/2 : ℚ) * 1 * (95/100) * (8/10)) = -19/50
    ∧ (foodResult.steps.get? 1).map
          (fun s => s.affectedNodes.find? (fun a => a.nodeId = "beef_emissions"))
        = some (some
          { nodeId := "beef_emissions", label := "Beef Production Emissions",
            previousValue := 0, newValue := -19/50, delta := -19/50,
            contributingEdges := ["edge_0_beef_consumption_beef_emissions"] })
    ∧ getA foodResult.nodeOrders "beef_emissions" = some 2
    ∧ (foodResult.graph.nodes.find? (fun n => n.id = "beef_emissions")).map
        (fun n => n.order) = some 2 := by
  refine ⟨by norm_num +decide [buildGraph, foodScenario, graphTemplatesLookup], ?_, by norm_num,
    by norm_num, ?_, ?_, ?_⟩ <;>
    norm_num +decide [foodResult, foodShocks, foodScenario, buildGraph, graphTemplatesLookup,
      foodSubstitutionTemplate, instantiateTemplate, applyScenarioAdjustments,
      sourceCategoryIsBehavior, nodeOfTemplate, edgeOfTemplate, mapWithIndex,
      createShocksFromScenario, buildAssumptionMap, propagate, buildNodeMap,
      buildEdgesBySource, applyShock, createStep, stepAffectedNodes, cumulativeTotals,
      propagateLoop, computeNext, processSource, processEdge, hasSignificantDelta,
      applyDelta, mathAbs, jsOr, getA, setA, DEFAULT_CONFIG]

/-- C6: `scaleGraphByTimeframe` multiplies every node's delta by the number of
weeks (for every positive integer factor) and leaves the edge list
unchanged. -/
theorem scaleGraphByTimeframe_linear (g : CausalGraph) (k : ℕ) (hk : 0 < k) :
    (scaleGraphByTimeframe g (k : ℚ)).nodes.map (fun n => n.delta)
        = g.nodes.map (fun n => (k : ℚ) * n.delta)
    ∧ (scaleGraphByTimeframe g (k : ℚ)).edges = g.edges := by
  refine ⟨?_, rfl⟩
  simp only [scaleGraphByTimeframe, List.map_map]
  refine List.map_congr_left fun n _ => ?_
  by_cases h : n.delta = 0 <;> simp [h, mul_comm]

/-- A small two-node graph used to instantiate the general theorems. -/
def witnessGraph : CausalGraph :=
  { nodes := [
      { id := "a", label := "A", category := "behavior", unit := "u", description := "",
        baselineValue := none, delta := 1, order := 0 },
      { id := "b", label := "B", category := "emissions", unit := "u", description := "",
        baselineValue := none, delta := -1/2, order := 0 }],
    edges := [
      { id := "e0", source := "a", target := "b", sign := 1, strength := 95/100,
        confidence := 9/10, rationale := "", lagSteps := 0 }] }

/-- Witness for C6 at the concrete graph `witnessGraph` and factor `3`. -/
theorem scaleGraphByTimeframe_linear_witness :
    0 < 3
    ∧ ((scaleGraphByTimeframe witnessGraph ((3 : ℕ) : ℚ)).nodes.map (fun n => n.delta)
          = witnessGraph.nodes.map (fun n => ((3 : ℕ) : ℚ) * n.delta)
        ∧ (scaleGraphByTimeframe witnessGraph ((3 : ℕ) : ℚ)).edges = witnessGraph.edges) :=
  ⟨by decide, scaleGraphByTimeframe_linear witnessGraph 3 (by decide)⟩

theorem insertByKeyDesc_perm {α : Type} (key : α → ℚ) (x : α) (l : List α) :
    (insertByKeyDesc key x l).Perm (x :: l) := by
  induction l with
  | nil => exact List.Perm.refl _
  | cons y ys ih =>
    by_cases h : key y ≤ key x
    · simp [insertByKeyDesc, h]
    · simp only [insertByKeyDesc, h, if_false]
      exact (ih.cons y).trans (List.Perm.swap x y ys)

theorem sortByKeyDesc_perm {α : Type} (key : α → ℚ) (l : List α) :
    (sortByKeyDesc key l).Perm l := by
  induction l with
  | nil => exact List.Perm.refl _
  | cons x xs ih =>
    exact (insertByKeyDesc_perm key x (sortByKeyDesc key xs)).trans (ih.cons x)

theorem mem_sortByKeyDesc {α : Type} (key : α → ℚ) (l : List α) (a : α) :
    a ∈ sortByKeyDesc key l ↔ a ∈ l :=
  (sortByKeyDesc_perm key l).mem_iff

/-- Entries appended to a breakdown array keep percentages of the entries
before them and carry `percentage = 0` themselves. -/
theorem pct_zero_append (l : List MetricBreakdown) (b₀ : MetricBreakdown)
    (h : ∀ b ∈ l, b.percentage = 0) (h₀ : b₀.percentage = 0) :
    ∀ b ∈ l ++ [b₀], b.percentage = 0 := by
  intro b hb
  rcases List.mem_append.mp hb with hl | hr
  · exact h b hl
  · simp only [List.mem_singleton] at hr
    rw [hr]
    exact h₀

/-- One `calculateTotals` iteration preserves "all percentages are 0". -/
theorem totalsStep_percentage_zero (g : CausalGraph) (acc : TotalsAcc) (node : CausalNode)
    (hc : ∀ b ∈ acc.carbonBreakdown, b.percentage = 0)
    (hw : ∀ b ∈ acc.waterBreakdown, b.percentage = 0)
    (hs : ∀ b ∈ acc.wasteBreakdown, b.percentage = 0) :
    (∀ b ∈ (totalsStep g acc node).carbonBreakdown, b.percentage = 0)
    ∧ (∀ b ∈ (totalsStep g acc node).waterBreakdown, b.percentage = 0)
    ∧ (∀ b ∈ (totalsStep g acc node).wasteBreakdown, b.percentage = 0) := by
  by_cases h0 : node.delta = 0
  · simpa [totalsStep, h0] using ⟨hc, hw, hs⟩
  by_cases h1 : node.category = "emissions"
  · simp only [totalsStep, h0, if_neg, if_false, h1, if_true, ite_true, ite_false]
    exact ⟨pct_zero_append _ _ hc rfl, hw, hs⟩
  by_cases h2 : node.category = "water"
  · simp only [totalsStep, h0, h1, h2, ite_true, ite_false]
    exact ⟨hc, pct_zero_append _ _ hw rfl, hs⟩
  by_cases h3 : node.category = "waste"
  · simp only [totalsStep, h0, h1, h2, h3, ite_true, ite_false]
    exact ⟨hc, hw, pct_zero_append _ _ hs rfl⟩
  · simpa [totalsStep, h0, h1, h2, h3] using ⟨hc, hw, hs⟩

/-- All breakdown entries built by the `calculateTotals` pass carry
`percentage = 0` (the field is filled in only by `calculatePercentages`). -/
theorem totals_fold_percentage_zero (g : CausalGraph) (nodes : List CausalNode)
    (acc : TotalsAcc)
    (hc : ∀ b ∈ acc.carbonBreakdown, b.percentage = 0)
    (hw : ∀ b ∈ acc.waterBreakdown, b.percentage = 0)
    (hs : ∀ b ∈ acc.wasteBreakdown, b.percentage = 0) :
    (∀ b ∈ (nodes.foldl (totalsStep g) acc).carbonBreakdown, b.percentage = 0)
    ∧ (∀ b ∈ (nodes.foldl (totalsStep g) acc).waterBreakdown, b.percentage = 0)
    ∧ (∀ b ∈ (nodes.foldl (totalsStep g) acc).wasteBreakdown, b.percentage = 0) := by
  induction nodes generalizing acc with
  | nil => exact ⟨hc, hw, hs⟩
  | cons node rest ih =>
    rw [List.foldl_cons]
    obtain ⟨hc', hw', hs'⟩ := totalsStep_percentage_zero g acc node hc hw hs
    exact ih _ hc' hw' hs'

theorem computeInfluence_zero_cat (node : CausalNode) (totals : SimulationTotals) :
    ((node.category = "emissions" → totals.carbon.value = 0 →
        computeInfluence node totals = 0)
      ∧ (node.category = "water" → totals.water.value = 0 →
        computeInfluence node totals = 0)
      ∧ (node.category = "waste" → totals.waste.value = 0 →
        computeInfluence node totals = 0))
    ∧ (totals.carbon.value = 0 → totals.water.value = 0 → totals.waste.value = 0 →
        computeInfluence node totals = 0) := by
  unfold computeInfluence
  constructor
  · refine ⟨?_, ?_, ?_⟩ <;> intro hcat hv <;> simp +decide [hcat, hv]
  · intro h1 h2 h3
    simp [h1, h2, h3]

/-- C7: degenerate totals never divide: with a zero category total every
breakdown percentage stays `0`, every rebound `offsetPercentage` is `0` when
the carbon total is `0`, and a driver's influence is `0` whenever its
category's total is `0` (in particular all influences are `0` when all three
totals are).  All aggregators are total functions, so no exception or `NaN`
can arise. -/
theorem aggregators_degenerate_totals_zero (g : CausalGraph) (nodeOrders : AListV ℕ)
    (totals : SimulationTotals) (limit : ℕ) (node : CausalNode) :
    ((calculateTotals g).carbon.value = 0 →
      ∀ b ∈ (calculateTotals g).carbon.breakdown, b.percentage = 0)
    ∧ ((calculateTotals g).water.value = 0 →
      ∀ b ∈ (calculateTotals g).water.breakdown, b.percentage = 0)
    ∧ ((calculateTotals g).waste.value = 0 →
      ∀ b ∈ (calculateTotals g).waste.breakdown, b.percentage = 0)
    ∧ (totals.carbon.value = 0 →
      ∀ r ∈ extractReboundEffects g nodeOrders totals, r.offsetPercentage = 0)
    ∧ (node.category = "emissions" → totals.carbon.value = 0 →
      computeInfluence node totals = 0)
    ∧ (node.category = "water" → totals.water.value = 0 →
      computeInfluence node totals = 0)
    ∧ (node.category = "waste" → totals.waste.value = 0 →
      computeInfluence node totals = 0)
    ∧ (totals.carbon.value = 0 → totals.water.value = 0 → totals.waste.value = 0 →
      ∀ d ∈ identifyTopDrivers g totals limit, d.influence = 0) := by
  have hpct := totals_fold_percentage_zero g g.nodes
    { carbonBreakdown := [], waterBreakdown := [], wasteBreakdown := [],
      totalCarbon := 0, totalWater := 0, totalWaste := 0,
      carbonConfidenceSum := 0, waterConfidenceSum := 0, wasteConfidenceSum := 0,
      carbonCount := 0, waterCount := 0, wasteCount := 0 }
    (by simp) (by simp) (by simp)
  refine ⟨?_, ?_, ?_, ?_, ?_, ?_, ?_, ?_⟩
  · intro hv b hb
    simp only [calculateTotals] at hv hb
    rw [calculatePercentages, if_pos hv, mem_sortByKeyDesc] at hb
    exact hpct.1 b hb
  · intro hv b hb
    simp only [calculateTotals] at hv hb
    rw [calculatePercentages, if_pos hv, mem_sortByKeyDesc] at hb
    exact hpct.2.1 b hb
  · intro hv b hb
    simp only [calculateTotals] at hv hb
    rw [calculatePercentages, if_pos hv, mem_sortByKeyDesc] at hb
    exact hpct.2.2 b hb
  · intro hv r hr
    simp only [extractReboundEffects] at hr
    obtain ⟨nd, _, hf⟩ := List.mem_filterMap.mp hr
    by_cases hcond : nd.category = "rebound" ∧ nd.delta ≠ 0
    · rw [if_pos hcond] at hf
      obtain rfl := Option.some.inj hf
      simp [hv]
    · rw [if_neg hcond] at hf
      cases hf
  · exact ((computeInfluence_zero_cat node totals).1).1
  · exact ((computeInfluence_zero_cat node totals).1).2.1
  · exact ((computeInfluence_zero_cat node totals).1).2.2
  · intro h1 h2 h3 d hd
    simp only [identifyTopDrivers] at hd
    have hd' := List.take_subset _ _ hd
    rw [mem_sortByKeyDesc] at hd'
    obtain ⟨nd, _, hf⟩ := List.mem_filterMap.mp hd'
    by_cases hz : nd.delta = 0
    · rw [if_pos hz] at hf
      cases hf
    · rw [if_neg hz] at hf
      by_cases hcat : nd.category = "emissions" ∨ nd.category = "water"
          ∨ nd.category = "waste"
      · rw [if_pos hcat] at hf
        obtain rfl := Option.some.inj hf
        exact (computeInfluence_zero_cat nd totals).2 h1 h2 h3
      · rw [if_neg hcat] at hf
        cases hf

/-- An all-zero totals record used to instantiate degenerate-total theorems. -/
def zeroTotals : SimulationTotals :=
  { carbon := { value := 0, unit := "kg CO₂e/week", confidence := 0, breakdown := [] },
    water := { value := 0, unit := "liters/week", confidence := 0, breakdown := [] },
    waste := { value := 0, unit := "kg/week", confidence := 0, breakdown := [] } }

/-- Witness for C7: influence of a concrete emissions node is `0` on the
all-zero totals. -/
theorem aggregators_degenerate_totals_zero_witness :
    computeInfluence
      { id := "b", label := "B", category := "emissions", unit := "u", description := "",
        baselineValue := none, delta := -1/2, order := 0 } zeroTotals = 0 :=
  (aggregators_degenerate_totals_zero witnessGraph [] zeroTotals 5
    { id := "b", label := "B", category := "emissions", unit := "u", description := "",
      baselineValue := none, delta := -1/2, order := 0 }).2.2.2.2.1 rfl rfl

/-- The running invariant of the `calculateTotals` pass: each total equals the
sum of the contributions pushed into the matching breakdown array. -/
def accConserved (acc : TotalsAcc) : Prop :=
  acc.totalCarbon = (acc.carbonBreakdown.map (fun b => b.contribution)).sum
  ∧ acc.totalWater = (acc.waterBreakdown.map (fun b => b.contribution)).sum
  ∧ acc.totalWaste = (acc.wasteBreakdown.map (fun b => b.contribution)).sum

theorem totalsStep_conserved (g : CausalGraph) (acc : TotalsAcc) (node : CausalNode)
    (h : accConserved acc) : accConserved (totalsStep g acc node) := by
  obtain ⟨h1, h2, h3⟩ := h
  by_cases h0 : node.delta = 0
  · simpa [totalsStep, h0, accConserved] using ⟨h1, h2, h3⟩
  by_cases hc1 : node.category = "emissions"
  · refine ⟨?_, ?_, ?_⟩ <;> simp [totalsStep, h0, hc1, h1, h2, h3]
  by_cases hc2 : node.category = "water"
  · refine ⟨?_, ?_, ?_⟩ <;> simp [totalsStep, h0, hc1, hc2, h1, h2, h3]
  by_cases hc3 : node.category = "waste"
  · refine ⟨?_, ?_, ?_⟩ <;> simp [totalsStep, h0, hc1, hc2, hc3, h1, h2, h3]
  · simpa [totalsStep, h0, hc1, hc2, hc3, accConserved] using ⟨h1, h2, h3⟩

theorem totals_fold_conserved (g : CausalGraph) (nodes : List CausalNode) (acc : TotalsAcc)
    (h : accConserved acc) : accConserved (nodes.foldl (totalsStep g) acc) := by
  induction nodes generalizing acc with
  | nil => exact h
  | cons node rest ih => exact ih _ (totalsStep_conserved g acc node h)

theorem calculatePercentages_contribution (arr : List MetricBreakdown) (t : ℚ) :
    (calculatePercentages arr t).map (fun b => b.contribution)
      = arr.map (fun b => b.contribution) := by
  unfold calculatePercentages
  split
  · rfl
  · simp

theorem sortByKeyDesc_map_sum {α : Type} (key : α → ℚ) (f : α → ℚ) (l : List α) :
    ((sortByKeyDesc key l).map f).sum = (l.map f).sum :=
  ((sortByKeyDesc_perm key l).map f).sum_eq

theorem mathAbs_of_nonneg {x : ℚ} (h : 0 ≤ x) : mathAbs x = x := by
  simp [mathAbs, not_lt.mpr h]

theorem mathAbs_of_nonpos {x : ℚ} (h : x ≤ 0) : mathAbs x = -x := by
  rcases lt_or_eq_of_le h with h' | h'
  · simp [mathAbs, h']
  · simp [mathAbs, h']

theorem sum_div_abs_mul_hundred (arr : List MetricBreakdown) (t : ℚ) :
    ((arr.map (fun b => mathAbs b.contribution / mathAbs t * 100)).sum)
      = ((arr.map (fun b => mathAbs b.contribution)).sum) / mathAbs t * 100 := by
  induction arr with
  | nil => simp
  | cons b rest ih => simp [ih, add_div, add_mul]

theorem list_sum_nonpos_q {l : List ℚ} (h : ∀ x ∈ l, x ≤ 0) : l.sum ≤ 0 := by
  induction l with
  | nil => simp
  | cons x rest ih =>
    rw [List.sum_cons]
    exact add_nonpos (h x (List.mem_cons_self x rest))
      (ih fun y hy => h y (List.mem_cons_of_mem x hy))

theorem sum_map_neg_contribution (arr : List MetricBreakdown) :
    (arr.map (fun b => -b.contribution)).sum
      = -((arr.map (fun b => b.contribution)).sum) := by
  induction arr with
  | nil => simp
  | cons b rest ih =>
    simp only [List.map_cons, List.sum_cons, ih]
    ring

theorem mathAbs_ne_zero {t : ℚ} (ht : t ≠ 0) : mathAbs t ≠ 0 := by
  intro hz
  rcases lt_trichotomy t 0 with h | h | h
  · rw [mathAbs_of_nonpos h.le] at hz
    exact ht (by linarith)
  · exact ht h
  · rw [mathAbs_of_nonneg h.le] at hz
    exact ht hz

/-- When every contribution shares one sign and the total is nonzero, the
percentages written by `calculatePercentages` sum to exactly `100`. -/
theorem calculatePercentages_sum_100 (arr : List MetricBreakdown) (t : ℚ) (ht : t ≠ 0)
    (hsum : (arr.map (fun b => b.contribution)).sum = t)
    (hsign : (∀ b ∈ arr, 0 ≤ b.contribution) ∨ (∀ b ∈ arr, b.contribution ≤ 0)) :
    ((calculatePercentages arr t).map (fun b => b.percentage)).sum = 100 := by
  rw [calculatePercentages, if_neg ht, List.map_map]
  have hfuse : ((fun b : MetricBreakdown => b.percentage) ∘ fun item =>
      ({ item with percentage := mathAbs item.contribution / mathAbs t * 100 } :
        MetricBreakdown))
      = fun b : MetricBreakdown => mathAbs b.contribution / mathAbs t * 100 := rfl
  rw [hfuse, sum_div_abs_mul_hundred arr t]
  have habs : ((arr.map (fun b => mathAbs b.contribution)).sum) = mathAbs t := by
    rcases hsign with hpos | hneg
    · have hmap : arr.map (fun b => mathAbs b.contribution)
          = arr.map (fun b => b.contribution) :=
        List.map_congr_left fun b hb => mathAbs_of_nonneg (hpos b hb)
      have ht0 : 0 ≤ t := hsum ▸ List.sum_nonneg (by
        intro x hx
        obtain ⟨b, hb, rfl⟩ := List.mem_map.mp hx
        exact hpos b hb)
      rw [hmap, hsum, mathAbs_of_nonneg ht0]
    · have hmap : arr.map (fun b => mathAbs b.contribution)
          = arr.map (fun b => -b.contribution) :=
        List.map_congr_left fun b hb => mathAbs_of_nonpos (hneg b hb)
      have ht0 : t ≤ 0 := hsum ▸ list_sum_nonpos_q (by
        intro x hx
        obtain ⟨b, hb, rfl⟩ := List.mem_map.mp hx
        exact hneg b hb)
      rw [hmap, sum_map_neg_contribution, hsum, mathAbs_of_nonpos ht0]
  rw [habs, div_self (mathAbs_ne_zero ht), one_mul]

/-- The final breakdown entries' contributions are exactly the ones collected
by the pass (the sign-uniformity hypothesis transfers from the published
breakdown back to the raw array). -/
theorem sign_transfer (P : ℚ → Prop) (key : MetricBreakdown → ℚ)
    (arr : List MetricBreakdown) (t : ℚ)
    (h : ∀ b ∈ sortByKeyDesc key (calculatePercentages arr t), P b.contribution) :
    ∀ b ∈ arr, P b.contribution := by
  intro b hb
  unfold calculatePercentages at h
  by_cases ht : t = 0
  · rw [if_pos ht] at h
    exact h b ((mem_sortByKeyDesc _ _ _).mpr hb)
  · rw [if_neg ht] at h
    exact h { nodeId := b.nodeId, label := b.label, contribution := b.contribution,
              percentage := mathAbs b.contribution / mathAbs t * 100 }
      ((mem_sortByKeyDesc _ _ _).mpr (List.mem_map_of_mem _ hb))

/-- C2 (amended): for every category the breakdown contributions sum exactly
to the category total; and the percentages sum to `100` whenever the total is
nonzero **and** all of that category's contributions share one sign (the
original unconditional claim fails on mixed signs, see the counterexample). -/
theorem calculateTotals_breakdown_conservation (g : CausalGraph) :
    (((calculateTotals g).carbon.breakdown.map (fun b => b.contribution)).sum
        = (calculateTotals g).carbon.value
      ∧ ((calculateTotals g).water.breakdown.map (fun b => b.contribution)).sum
        = (calculateTotals g).water.value
      ∧ ((calculateTotals g).waste.breakdown.map (fun b => b.contribution)).sum
        = (calculateTotals g).waste.value)
    ∧ ((calculateTotals g).carbon.value ≠ 0 →
        ((∀ b ∈ (calculateTotals g).carbon.breakdown, 0 ≤ b.contribution)
          ∨ (∀ b ∈ (calculateTotals g).carbon.breakdown, b.contribution ≤ 0)) →
        ((calculateTotals g).carbon.breakdown.map (fun b => b.percentage)).sum = 100)
    ∧ ((calculateTotals g).water.value ≠ 0 →
        ((∀ b ∈ (calculateTotals g).water.breakdown, 0 ≤ b.contribution)
          ∨ (∀ b ∈ (calculateTotals g).water.breakdown, b.contribution ≤ 0)) →
        ((calculateTotals g).water.breakdown.map (fun b => b.percentage)).sum = 100)
    ∧ ((calculateTotals g).waste.value ≠ 0 →
        ((∀ b ∈ (calculateTotals g).waste.breakdown, 0 ≤ b.contribution)
          ∨ (∀ b ∈ (calculateTotals g).waste.breakdown, b.contribution ≤ 0)) →
        ((calculateTotals g).waste.breakdown.map (fun b => b.percentage)).sum = 100) := by
  obtain ⟨h1, h2, h3⟩ := totals_fold_conserved g g.nodes
    { carbonBreakdown := [], waterBreakdown := [], wasteBreakdown := [],
      totalCarbon := 0, totalWater := 0, totalWaste := 0,
      carbonConfidenceSum := 0, waterConfidenceSum := 0, wasteConfidenceSum := 0,
      carbonCount := 0, waterCount := 0, wasteCount := 0 }
    (by simp [accConserved])
  refine ⟨⟨?_, ?_, ?_⟩, ?_, ?_, ?_⟩
  · simp only [calculateTotals]
    rw [sortByKeyDesc_map_sum, calculatePercentages_contribution]
    exact h1.symm
  · simp only [calculateTotals]
    rw [sortByKeyDesc_map_sum, calculatePercentages_contribution]
    exact h2.symm
  · simp only [calculateTotals]
    rw [sortByKeyDesc_map_sum, calculatePercentages_contribution]
    exact h3.symm
  · intro ht hsign
    simp only [calculateTotals] at ht hsign ⊢
    rw [sortByKeyDesc_map_sum]
    refine calculatePercentages_sum_100 _ _ ht h1.symm ?_
    rcases hsign with hs | hs
    · exact Or.inl (sign_transfer (fun x => 0 ≤ x) _ _ _ hs)
    · exact Or.inr (sign_transfer (fun x => x ≤ 0) _ _ _ hs)
  · intro ht hsign
    simp only [calculateTotals] at ht hsign ⊢
    rw [sortByKeyDesc_map_sum]
    refine calculatePercentages_sum_100 _ _ ht h2.symm ?_
    rcases hsign with hs | hs
    · exact Or.inl (sign_transfer (fun x => 0 ≤ x) _ _ _ hs)
    · exact Or.inr (sign_transfer (fun x => x ≤ 0) _ _ _ hs)
  · intro ht hsign
    simp only [calculateTotals] at ht hsign ⊢
    rw [sortByKeyDesc_map_sum]
    refine calculatePercentages_sum_100 _ _ ht h3.symm ?_
    rcases hsign with hs | hs
    · exact Or.inl (sign_transfer (fun x => 0 ≤ x) _ _ _ hs)
    · exact Or.inr (sign_transfer (fun x => x ≤ 0) _ _ _ hs)

/-- A graph whose emissions contributions have mixed signs: deltas `1` and
`-1/2` give a carbon total of `1/2`. -/
def mixedSignGraph : CausalGraph :=
  { nodes := [
      { id := "p", label := "P", category := "emissions", unit := "u", description := "",
        baselineValue := none, delta := 1, order := 1 },
      { id := "q", label := "Q", category := "emissions", unit := "u", description := "",
        baselineValue := none, delta := -1/2, order := 1 }],
    edges := [] }

/-- Counterexample to C2 as stated: on `mixedSignGraph` the carbon total is
the nonzero `1/2`, yet the breakdown percentages sum to `300`, not `100`
(`|1|/|1/2|·100 = 200` and `|-1/2|/|1/2|·100 = 100`). -/
theorem breakdown_percentages_counterexample :
    (calculateTotals mixedSignGraph).carbon.value = 1/2
    ∧ ((calculateTotals mixedSignGraph).carbon.breakdown.map (fun b => b.percentage)).sum
        = 300
    ∧ ¬ (((calculateTotals mixedSignGraph).carbon.breakdown.map
          (fun b => b.percentage)).sum = 100) := by
  refine ⟨?_, ?_, ?_⟩ <;>
    norm_num +decide [mixedSignGraph, calculateTotals, totalsStep, getNodeConfidence,
      calculatePercentages, sortByKeyDesc, insertByKeyDesc, mathAbs]

/-- Witness for C2 (amended) on `witnessGraph`: its only carbon contribution
is `-1/2`, so the total is nonzero, the signs are uniform, and the
percentages sum to `100`. -/
theorem calculateTotals_breakdown_conservation_witness :
    ((calculateTotals witnessGraph).carbon.breakdown.map (fun b => b.percentage)).sum
      = 100 :=
  (calculateTotals_breakdown_conservation witnessGraph).2.1
    (by norm_num +decide [witnessGraph, calculateTotals, totalsStep, getNodeConfidence,
      calculatePercentages, sortByKeyDesc, insertByKeyDesc, mathAbs])
    (Or.inr (by norm_num +decide [witnessGraph, calculateTotals, totalsStep,
      getNodeConfidence, calculatePercentages, sortByKeyDesc, insertByKeyDesc, mathAbs]))

/-! ### Order assignment (claim C5) -/

/-- Step 0 sets order `1` for every shocked node id and touches no other
order entry. -/
theorem shockFold_orders (shocks : List Shock) (st : LoopState) (n : String) :
    getA (shocks.foldl applyShock st).nodeOrders n
      = if ∃ s ∈ shocks, s.nodeId = n then some 1 else getA st.nodeOrders n := by
  induction shocks generalizing st with
  | nil => simp
  | cons s rest ih =>
    rw [List.foldl_cons, ih]
    by_cases hrest : ∃ s' ∈ rest, s'.nodeId = n
    · have : ∃ s' ∈ s :: rest, s'.nodeId = n := by
        obtain ⟨s', hs', h⟩ := hrest
        exact ⟨s', List.mem_cons_of_mem s hs', h⟩
      simp [hrest, this]
    · by_cases hs : s.nodeId = n
      · have : ∃ s' ∈ s :: rest, s'.nodeId = n := ⟨s, List.mem_cons_self s rest, hs⟩
        simp only [hrest, if_false, this, if_true, applyShock]
        rw [hs, getA_setA_self]
      · have : ¬ ∃ s' ∈ s :: rest, s'.nodeId = n := by
          rintro ⟨s', hs', h⟩
          rcases List.mem_cons.mp hs' with rfl | hmem
          · exact hs h
          · exact hrest ⟨s', hmem, h⟩
        simp only [hrest, if_false, this, applyShock]
        exact getA_setA_ne _ _ _ _ (fun hh => hs hh.symm)

/-- `applyDelta` never changes an order that is already set. -/
theorem applyDelta_order_preserved (depth : ℕ) (st : LoopState) (p : String × ℚ)
    (n : String) (k : ℕ) (h : getA st.nodeOrders n = some k) :
    getA (applyDelta depth st p).nodeOrders n = some k := by
  unfold applyDelta
  by_cases hp : p.1 = n
  · subst hp
    simp [h]
  · by_cases hs : (getA st.nodeOrders p.1).isSome
    · simpa [hs] using h
    · simp only [hs, if_false, Bool.false_eq_true]
      rw [getA_setA_ne _ _ _ _ (fun hh => hp hh.symm)]
      exact h

theorem foldl_applyDelta_order_preserved (depth : ℕ) (nd : List (String × ℚ))
    (st : LoopState) (n : String) (k : ℕ) (h : getA st.nodeOrders n = some k) :
    getA (nd.foldl (applyDelta depth) st).nodeOrders n = some k := by
  induction nd generalizing st with
  | nil => exact h
  | cons p rest ih =>
    rw [List.foldl_cons]
    exact ih _ (applyDelta_order_preserved depth st p n k h)

/-- A node with no order yet gets order `depth + 1` exactly when it receives a
delta in this iteration, and stays unset otherwise. -/
theorem foldl_applyDelta_order_fresh (depth : ℕ) (nd : List (String × ℚ))
    (st : LoopState) (n : String) (h : getA st.nodeOrders n = none) :
    getA (nd.foldl (applyDelta depth) st).nodeOrders n
      = if n ∈ nd.map Prod.fst then some (depth + 1) else none := by
  induction nd generalizing st with
  | nil => simpa using h
  | cons p rest ih =>
    rw [List.foldl_cons]
    by_cases hp : p.1 = n
    · have hset : getA (applyDelta depth st p).nodeOrders n = some (depth + 1) := by
        unfold applyDelta
        subst hp
        simp [h, getA_setA_self]
      rw [foldl_applyDelta_order_preserved depth rest _ n _ hset]
      simp [hp]
    · have hkeep : getA (applyDelta depth st p).nodeOrders n = none := by
        unfold applyDelta
        by_cases hs : (getA st.nodeOrders p.1).isSome
        · simpa [hs] using h
        · simp only [hs, if_false, Bool.false_eq_true]
          rw [getA_setA_ne _ _ _ _ (fun hh => hp hh.symm)]
          exact h
      rw [ih _ hkeep]
      have hp' : ¬ n = p.1 := fun hh => hp hh.symm
      have hmem : (n ∈ (p :: rest).map Prod.fst) ↔ (n ∈ rest.map Prod.fst) := by
        simp [hp']
      simp only [hmem]

/-- The whole loop never changes an order once set. -/
theorem propagateLoop_order_preserved (cfg : PropagationConfig)
    (ebs : AListV (List CausalEdge)) (fuel depth : ℕ) (st : LoopState) (n : String)
    (k : ℕ) (h : getA st.nodeOrders n = some k) :
    getA (propagateLoop cfg ebs depth fuel st).nodeOrders n = some k := by
  induction fuel generalizing depth st with
  | zero => exact h
  | succ fuel ih =>
    rw [propagateLoop]
    by_cases hs : hasSignificantDelta cfg (computeNext cfg ebs st.currentDeltas).1
    · simp only [hs, if_true]
      exact ih _ _ (foldl_applyDelta_order_preserved _ _ _ _ _ h)
    · simp only [hs, if_false, Bool.false_eq_true]
      exact h

/-- C5: a node's order is written exactly once.  Shocked nodes get order `1`
at step 0 and keep it in the final result; a node with no order that first
receives a delta at iteration `depth` is assigned `depth + 1`, and one that
receives nothing stays unset; and any order already set survives one
iteration and the entire remaining loop unchanged (in particular it never
decreases). -/
theorem propagate_order_set_once (g : CausalGraph) (shocks : List Shock)
    (A : List Assumption) (cfg : PropagationConfig) (n : String) :
    ((∃ s ∈ shocks, s.nodeId = n) →
      getA (propagate g shocks A cfg).nodeOrders n = some 1)
    ∧ (∀ (depth : ℕ) (nd : List (String × ℚ)) (st : LoopState),
        getA st.nodeOrders n = none →
        getA (nd.foldl (applyDelta depth) st).nodeOrders n
          = if n ∈ nd.map Prod.fst then some (depth + 1) else none)
    ∧ (∀ (depth : ℕ) (nd : List (String × ℚ)) (st : LoopState) (k : ℕ),
        getA st.nodeOrders n = some k →
        getA (nd.foldl (applyDelta depth) st).nodeOrders n = some k)
    ∧ (∀ (fuel depth : ℕ) (st : LoopState) (k : ℕ),
        getA st.nodeOrders n = some k →
        getA (propagateLoop cfg (buildEdgesBySource g.edges) depth fuel st).nodeOrders n
          = some k) := by
  refine ⟨?_, ?_, ?_, ?_⟩
  · intro hex
    show getA (propagateLoop cfg (buildEdgesBySource g.edges) 1 cfg.maxDepth _).nodeOrders n
        = some 1
    refine propagateLoop_order_preserved _ _ _ _ _ _ _ ?_
    show getA (shocks.foldl applyShock _).nodeOrders n = some 1
    rw [shockFold_orders, if_pos hex]
  · exact fun depth nd st h => foldl_applyDelta_order_fresh depth nd st n h
  · exact fun depth nd st k h => foldl_applyDelta_order_preserved depth nd st n k h
  · exact fun fuel depth st k h =>
      propagateLoop_order_preserved cfg (buildEdgesBySource g.edges) fuel depth st n k h

/-- Witness for C5: the shocked node `a` of `witnessGraph` ends with order `1`. -/
theorem propagate_order_set_once_witness :
    getA (propagate witnessGraph [{ nodeId := "a", delta := 1, unit := "u" }] []
        DEFAULT_CONFIG).nodeOrders "a" = some 1 :=
  (propagate_order_set_once witnessGraph [{ nodeId := "a", delta := 1, unit := "u" }] []
      DEFAULT_CONFIG "a").1
    ⟨{ nodeId := "a", delta := 1, unit := "u" }, List.mem_singleton.mpr rfl, rfl⟩

/-! ### Adoption scaling (claim C8) -/

theorem mapWithIndex_get? {α β : Type} (f : ℕ → α → β) (l : List α) (i j : ℕ) :
    (mapWithIndex f i l).get? j = (l.get? j).map (f (i + j)) := by
  induction l generalizing i j with
  | nil => simp [mapWithIndex]
  | cons a rest ih =>
    cases j with
    | zero => simp [mapWithIndex]
    | succ j =>
      simp only [mapWithIndex, List.get?]
      rw [ih]
      have : i + 1 + j = i + (j + 1) := by omega
      rw [this]

/-- C8: with no geography hint, `buildGraph` scales exactly the
behavior-sourced edges of adoption/policy scenarios (`plastic_ban`,
`reusable_adoption`) by the adoption rate, and leaves every other strength —
and every strength of the other scenario kinds — at the template value. -/
theorem buildGraph_adoption_scaling
    (sc : ParsedScenario) (t : GraphTemplate) (g : CausalGraph)
    (hgeo : sc.geography = none)
    (ht : graphTemplatesLookup sc.scenarioType = some t)
    (hg : buildGraph sc = some g)
    (i : ℕ) (te : TemplateEdge) (e : CausalEdge)
    (hte : t.edges.get? i = some te) (he : g.edges.get? i = some e) :
    ((sc.scenarioType = "plastic_ban" ∨ sc.scenarioType = "reusable_adoption") →
      (sourceCategoryIsBehavior g.nodes te.source = true →
        e.strength = te.strength * sc.adoptionRate)
      ∧ (sourceCategoryIsBehavior g.nodes te.source = false →
        e.strength = te.strength))
    ∧ ((sc.scenarioType = "food_substitution"
        ∨ sc.scenarioType = "transport_substitution") →
      e.strength = te.strength) := by
  rw [buildGraph, ht, Option.map_some'] at hg
  obtain rfl : g = instantiateTemplate t sc := (Option.some.inj hg).symm
  have hnodes : (instantiateTemplate t sc).nodes = t.nodes.map nodeOfTemplate := rfl
  have hedges : (instantiateTemplate t sc).edges
      = applyScenarioAdjustments (t.nodes.map nodeOfTemplate)
          (mapWithIndex edgeOfTemplate 0 t.edges) sc := rfl
  rw [hedges] at he
  simp only [applyScenarioAdjustments, hgeo] at he
  have hbase : (mapWithIndex edgeOfTemplate 0 t.edges).get? i
      = some (edgeOfTemplate i te) := by
    rw [mapWithIndex_get?, hte]
    simp
  constructor
  · intro hkind
    rw [if_pos hkind, List.get?_map, hbase, Option.map_some'] at he
    obtain rfl := (Option.some.inj he).symm
    rw [hnodes]
    have hsource : (edgeOfTemplate i te).source = te.source := rfl
    constructor
    · intro hb
      rw [hsource, if_pos hb]
      rfl
    · intro hb
      rw [hsource, if_neg (by simp [hb])]
      rfl
  · intro hkind
    have hnot : ¬ (sc.scenarioType = "plastic_ban"
        ∨ sc.scenarioType = "reusable_adoption") := by
      rcases hkind with h | h <;> rw [h] <;> decide
    rw [if_neg hnot, hbase] at he
    obtain rfl := (Option.some.inj he).symm
    rfl

/-- A plastic-ban scenario at 50% adoption, no geography hint. -/
def plasticScenario : ParsedScenario :=
  { scenarioType := "plastic_ban", baseline := "plastic bags", change := "reusable bags",
    frequency := 2, frequencyUnit := "week", adoptionRate := 1/2, geography := none,
    timeframe := 1, assumptions := plasticBanTemplate.defaultAssumptions }

/-- The instantiated plastic-ban graph of `plasticScenario`. -/
def plasticGraph : CausalGraph := instantiateTemplate plasticBanTemplate plasticScenario

/-- Witness for C8: edge 0 of the plastic-ban template
(`plastic_bag_use → plastic_production_emissions`, template strength `0.95`,
behavior source) is scaled to `0.95 * 0.5` at 50% adoption. -/
theorem buildGraph_adoption_scaling_witness :
    ∃ e : CausalEdge, plasticGraph.edges.get? 0 = some e
      ∧ e.strength = (95/100) * (1/2) := by
  have he : ∃ e : CausalEdge, plasticGraph.edges.get? 0 = some e := by
    cases h : plasticGraph.edges.get? 0 with
    | none =>
      exfalso
      revert h
      norm_num +decide [plasticGraph, plasticScenario, instantiateTemplate,
        applyScenarioAdjustments, sourceCategoryIsBehavior, nodeOfTemplate,
        edgeOfTemplate, mapWithIndex, plasticBanTemplate]
    | some e => exact ⟨e, rfl⟩
  obtain ⟨e, he⟩ := he
  refine ⟨e, he, ?_⟩
  have := (buildGraph_adoption_scaling plasticScenario plasticBanTemplate plasticGraph
      rfl rfl rfl 0
      { source := "plastic_bag_use", target := "plastic_production_emissions", sign := 1,
        strength := 95/100, confidence := 9/10,
        rationale := "More bags = more production = more emissions", lagSteps := 0 }
      e rfl he).1 (Or.inl rfl)
  refine Eq.trans (this.1 ?_) rfl
  norm_num +decide [plasticGraph, plasticScenario, instantiateTemplate,
    applyScenarioAdjustments, sourceCategoryIsBehavior, nodeOfTemplate,
    edgeOfTemplate, mapWithIndex, plasticBanTemplate]

/-! ### Lagged edges are inert (claim C3) -/

/-- The edges a propagation iteration can actually fire from a source: its
grouped outgoing edges minus every lagged one. -/
def effectiveEdges (ebs : AListV (List CausalEdge)) (s : String) : List CausalEdge :=
  ((getA ebs s).getD []).filter (fun e => e.lagSteps = 0)

theorem buildEBS_aux (es : List CausalEdge) (m : AListV (List CausalEdge)) (s : String) :
    (getA (es.foldl
        (fun m edge => setA m edge.source (((getA m edge.source).getD []) ++ [edge])) m)
      s).getD []
      = (getA m s).getD [] ++ es.filter (fun e => e.source = s) := by
  induction es generalizing m with
  | nil => simp
  | cons e rest ih =>
    rw [List.foldl_cons, ih]
    by_cases h : e.source = s
    · rw [List.filter_cons_of_pos (by simp [h]), ← h, getA_setA_self]
      simp
    · rw [List.filter_cons_of_neg (by simp [h]),
        getA_setA_ne _ _ _ _ (fun hh => h hh.symm)]

theorem buildEBS_getD (es : List CausalEdge) (s : String) :
    (getA (buildEdgesBySource es) s).getD [] = es.filter (fun e => e.source = s) := by
  rw [buildEdgesBySource, buildEBS_aux]
  simp [getA]

theorem processEdge_lagged (cfg : PropagationConfig) (sd : ℚ)
    (acc : AListV ℚ × AListV (List String)) (e : CausalEdge) (h : e.lagSteps ≠ 0) :
    processEdge cfg sd acc e = acc := by
  unfold processEdge
  rw [if_pos (Nat.pos_of_ne_zero h)]

theorem foldl_processEdge_filter (cfg : PropagationConfig) (sd : ℚ)
    (l : List CausalEdge) (acc : AListV ℚ × AListV (List String)) :
    l.foldl (processEdge cfg sd) acc
      = (l.filter (fun e => e.lagSteps = 0)).foldl (processEdge cfg sd) acc := by
  induction l generalizing acc with
  | nil => rfl
  | cons e rest ih =>
    by_cases h : e.lagSteps = 0
    · rw [List.foldl_cons, List.filter_cons_of_pos (by simp [h]), List.foldl_cons, ih]
    · rw [List.foldl_cons, processEdge_lagged cfg sd acc e h,
        List.filter_cons_of_neg (by simp [h]), ih]

theorem processSource_congr (cfg : PropagationConfig)
    {ebs₁ ebs₂ : AListV (List CausalEdge)}
    (h : ∀ s, effectiveEdges ebs₁ s = effectiveEdges ebs₂ s) :
    processSource cfg ebs₁ = processSource cfg ebs₂ := by
  funext acc p
  unfold processSource
  by_cases hp : mathAbs p.2 < cfg.epsilon
  · rw [if_pos hp, if_pos hp]
  · rw [if_neg hp, if_neg hp,
      foldl_processEdge_filter cfg p.2 ((getA ebs₁ p.1).getD []) acc,
      foldl_processEdge_filter cfg p.2 ((getA ebs₂ p.1).getD []) acc]
    have heq := h p.1
    unfold effectiveEdges at heq
    rw [heq]

theorem computeNext_congr (cfg : PropagationConfig)
    {ebs₁ ebs₂ : AListV (List CausalEdge)}
    (h : ∀ s, effectiveEdges ebs₁ s = effectiveEdges ebs₂ s)
    (cur : AListV ℚ) : computeNext cfg ebs₁ cur = computeNext cfg ebs₂ cur := by
  unfold computeNext
  rw [processSource_congr cfg h]

theorem propagateLoop_congr (cfg : PropagationConfig)
    {ebs₁ ebs₂ : AListV (List CausalEdge)}
    (h : ∀ s, effectiveEdges ebs₁ s = effectiveEdges ebs₂ s)
    (fuel depth : ℕ) (st : LoopState) :
    propagateLoop cfg ebs₁ depth fuel st = propagateLoop cfg ebs₂ depth fuel st := by
  induction fuel generalizing depth st with
  | zero => rfl
  | succ fuel ih =>
    simp only [propagateLoop]
    rw [computeNext_congr cfg h st.currentDeltas]
    by_cases hs : hasSignificantDelta cfg (computeNext cfg ebs₂ st.currentDeltas).1
    · simp only [hs, if_true]
      rw [ih]
    · simp only [hs, if_false, Bool.false_eq_true]

/-- C3: an edge with `lagSteps > 0` never contributes at any step — removing
it from the graph leaves the returned node set (deltas and orders), the step
trace, and both lookup maps of `propagate` unchanged, for every graph, shock
list, assumption list and configuration. -/
theorem lagged_edge_inert (g : CausalGraph) (shocks : List Shock) (A : List Assumption)
    (cfg : PropagationConfig) (e : CausalEdge) (l₁ l₂ : List CausalEdge)
    (hsplit : g.edges = l₁ ++ e :: l₂) (hlag : 0 < e.lagSteps) :
    (propagate g shocks A cfg).graph.nodes
        = (propagate ⟨g.nodes, l₁ ++ l₂⟩ shocks A cfg).graph.nodes
    ∧ (propagate g shocks A cfg).steps
        = (propagate ⟨g.nodes, l₁ ++ l₂⟩ shocks A cfg).steps
    ∧ (propagate g shocks A cfg).nodeDeltas
        = (propagate ⟨g.nodes, l₁ ++ l₂⟩ shocks A cfg).nodeDeltas
    ∧ (propagate g shocks A cfg).nodeOrders
        = (propagate ⟨g.nodes, l₁ ++ l₂⟩ shocks A cfg).nodeOrders := by
  have heff : ∀ s, effectiveEdges (buildEdgesBySource g.edges) s
      = effectiveEdges (buildEdgesBySource (l₁ ++ l₂)) s := by
    intro s
    unfold effectiveEdges
    rw [buildEBS_getD, buildEBS_getD, hsplit]
    by_cases h : e.source = s
    · simp [List.filter_append, List.filter_cons, h, Nat.pos_iff_ne_zero.mp hlag]
    · simp [List.filter_append, List.filter_cons, h]
  have hloop := propagateLoop_congr cfg heff
  refine ⟨?_, ?_, ?_, ?_⟩ <;>
    · simp only [propagate]
      rw [hloop]

/-- A two-node graph whose only edge is lagged (`lagSteps = 1`). -/
def laggedEdge : CausalEdge :=
  { id := "e0", source := "a", target := "b", sign := 1, strength := 95/100,
    confidence := 9/10, rationale := "", lagSteps := 1 }

/-- The graph carrying `laggedEdge`. -/
def laggedGraph : CausalGraph :=
  { nodes := [
      { id := "a", label := "A", category := "behavior", unit := "u", description := "",
        baselineValue := none, delta := 0, order := 0 },
      { id := "b", label := "B", category := "emissions", unit := "u", description := "",
        baselineValue := none, delta := 0, order := 0 }],
    edges := [laggedEdge] }

/-- Witness for C3 at the concrete `laggedGraph`. -/
theorem lagged_edge_inert_witness :
    (propagate laggedGraph [{ nodeId := "a", delta := 1, unit := "u" }] []
          DEFAULT_CONFIG).graph.nodes
        = (propagate ⟨laggedGraph.nodes, [] ++ []⟩
            [{ nodeId := "a", delta := 1, unit := "u" }] [] DEFAULT_CONFIG).graph.nodes
    ∧ (propagate laggedGraph [{ nodeId := "a", delta := 1, unit := "u" }] []
          DEFAULT_CONFIG).steps
        = (propagate ⟨laggedGraph.nodes, [] ++ []⟩
            [{ nodeId := "a", delta := 1, unit := "u" }] [] DEFAULT_CONFIG).steps
    ∧ (propagate laggedGraph [{ nodeId := "a", delta := 1, unit := "u" }] []
          DEFAULT_CONFIG).nodeDeltas
        = (propagate ⟨laggedGraph.nodes, [] ++ []⟩
            [{ nodeId := "a", delta := 1, unit := "u" }] [] DEFAULT_CONFIG).nodeDeltas
    ∧ (propagate laggedGraph [{ nodeId := "a", delta := 1, unit := "u" }] []
          DEFAULT_CONFIG).nodeOrders
        = (propagate ⟨laggedGraph.nodes, [] ++ []⟩
            [{ nodeId := "a", delta := 1, unit := "u" }] [] DEFAULT_CONFIG).nodeOrders :=
  lagged_edge_inert laggedGraph [{ nodeId := "a", delta := 1, unit := "u" }] []
    DEFAULT_CONFIG laggedEdge [] [] rfl (by decide)

/-! ### Malformed references (claim C9): machinery -/

/-- Remove every binding of one key. -/
def dropKey {α : Type} (m : String) : AListV α → AListV α
  | [] => []
  | (k, v) :: rest => if k = m then dropKey m rest else (k, v) :: dropKey m rest

theorem getA_dropKey {α : Type} (m : String) (l : AListV α) (k : String) (h : k ≠ m) :
    getA (dropKey m l) k = getA l k := by
  induction l with
  | nil => rfl
  | cons p rest ih =>
    rcases p with ⟨k₀, v⟩
    by_cases hk : k₀ = m
    · subst hk
      simp [dropKey, getA, ih, Ne.symm h]
    · by_cases hq : k₀ = k
      · simp [dropKey, getA, hk, hq, h]
      · simp [dropKey, getA, hk, hq, ih]

theorem dropKey_setA_self {α : Type} (m : String) (l : AListV α) (v : α) :
    dropKey m (setA l m v) = dropKey m l := by
  induction l with
  | nil => simp [setA, dropKey]
  | cons p rest ih =>
    rcases p with ⟨k₀, w⟩
    by_cases hk : k₀ = m
    · simp [setA, dropKey, hk]
    · simp [setA, dropKey, hk, ih]

theorem dropKey_setA_ne {α : Type} (m k : String) (l : AListV α) (v : α) (h : k ≠ m) :
    dropKey m (setA l k v) = setA (dropKey m l) k v := by
  induction l with
  | nil => simp [setA, dropKey, h]
  | cons p rest ih =>
    rcases p with ⟨k₀, w⟩
    by_cases hk : k₀ = m
    · subst hk
      simp [setA, dropKey, Ne.symm h, ih]
    · by_cases hq : k₀ = k
      · simp [setA, dropKey, hk, hq, h]
      · simp [setA, dropKey, hk, hq, ih]

theorem getA_eq_of_dropKey_eq {α : Type} {m : String} {l₁ l₂ : AListV α}
    (h : dropKey m l₁ = dropKey m l₂) (k : String) (hk : k ≠ m) :
    getA l₁ k = getA l₂ k := by
  rw [← getA_dropKey m l₁ k hk, ← getA_dropKey m l₂ k hk, h]

theorem filterMap_dropKey {β : Type} (f : String × ℚ → Option β) (m : String)
    (hf : ∀ δ : ℚ, f (m, δ) = none) (d : AListV ℚ) :
    d.filterMap f = (dropKey m d).filterMap f := by
  induction d with
  | nil => rfl
  | cons p rest ih =>
    rcases p with ⟨k, δ⟩
    by_cases hk : k = m
    · subst hk
      simp [dropKey, List.filterMap_cons, hf δ, ih]
    · simp [dropKey, List.filterMap_cons, hk, ih]

/-- A `currentDeltas` entry for an id without outgoing edges contributes
nothing. -/
theorem processSource_inert (cfg : PropagationConfig) (ebs : AListV (List CausalEdge))
    (m : String) (hin : (getA ebs m).getD [] = [])
    (acc : AListV ℚ × AListV (List String)) (δ : ℚ) :
    processSource cfg ebs acc (m, δ) = acc := by
  unfold processSource
  rw [hin]
  split <;> rfl

theorem foldl_processSource_dropKey (cfg : PropagationConfig)
    (ebs : AListV (List CausalEdge)) (m : String) (hin : (getA ebs m).getD [] = [])
    (cur : AListV ℚ) (acc : AListV ℚ × AListV (List String)) :
    cur.foldl (processSource cfg ebs) acc
      = (dropKey m cur).foldl (processSource cfg ebs) acc := by
  induction cur generalizing acc with
  | nil => rfl
  | cons p rest ih =>
    rcases p with ⟨k, δ⟩
    by_cases hk : k = m
    · rw [List.foldl_cons, hk, processSource_inert cfg ebs m hin acc δ]
      simp [dropKey, ih]
    · simp [dropKey, hk, List.foldl_cons, ih]

theorem computeNext_inert_congr (cfg : PropagationConfig)
    (ebs : AListV (List CausalEdge)) (m : String) (hin : (getA ebs m).getD [] = [])
    {cur₁ cur₂ : AListV ℚ} (h : dropKey m cur₁ = dropKey m cur₂) :
    computeNext cfg ebs cur₁ = computeNext cfg ebs cur₂ := by
  unfold computeNext
  rw [foldl_processSource_dropKey cfg ebs m hin cur₁,
    foldl_processSource_dropKey cfg ebs m hin cur₂, h]

/-- Relation between a run whose state may carry phantom entries for the
missing id `m` and a run without them: node map and step trace coincide,
while the delta/order maps agree off `m`. -/
def MissingKeyRel (m : String) (st st' : LoopState) : Prop :=
  st.nodeMap = st'.nodeMap
  ∧ getA st.nodeMap m = none
  ∧ st.steps = st'.steps
  ∧ dropKey m st.currentDeltas = dropKey m st'.currentDeltas
  ∧ dropKey m st.nodeDeltas = dropKey m st'.nodeDeltas
  ∧ dropKey m st.nodeOrders = dropKey m st'.nodeOrders

theorem applyShock_rel (m : String) (st st' : LoopState) (s : Shock)
    (h : MissingKeyRel m st st') :
    MissingKeyRel m (applyShock st s) (applyShock st' s) := by
  obtain ⟨h1, h2, h3, h4, h5, h6⟩ := h
  by_cases hs : s.nodeId = m
  · subst hs
    refine ⟨?_, ?_, h3, ?_, ?_, ?_⟩ <;>
      simp [applyShock, h1, h2, h1 ▸ h2, dropKey_setA_self, h4, h5, h6]
  · refine ⟨?_, ?_, h3, ?_, ?_, ?_⟩
    · simp only [applyShock, h1]
    · simp only [applyShock]
      cases hga : getA st.nodeMap s.nodeId with
      | none => exact h2
      | some node =>
        rw [getA_setA_ne _ _ _ _ (fun hh => hs hh.symm)]
        exact h2
    · simp only [applyShock]
      rw [dropKey_setA_ne m s.nodeId _ _ hs, dropKey_setA_ne m s.nodeId _ _ hs, h4]
    · simp only [applyShock]
      rw [dropKey_setA_ne m s.nodeId _ _ hs, dropKey_setA_ne m s.nodeId _ _ hs, h5]
    · simp only [applyShock]
      rw [dropKey_setA_ne m s.nodeId _ _ hs, dropKey_setA_ne m s.nodeId _ _ hs, h6]

theorem foldl_applyShock_rel (m : String) (shocks : List Shock) (st st' : LoopState)
    (h : MissingKeyRel m st st') :
    MissingKeyRel m (shocks.foldl applyShock st) (shocks.foldl applyShock st') := by
  induction shocks generalizing st st' with
  | nil => exact h
  | cons s rest ih => exact ih _ _ (applyShock_rel m st st' s h)

/-- Applying a shock aimed at the missing id relates to not applying it. -/
theorem applyShock_absorb (m : String) (st st' : LoopState) (s : Shock)
    (hs : s.nodeId = m) (h : MissingKeyRel m st st') :
    MissingKeyRel m (applyShock st s) st' := by
  obtain ⟨h1, h2, h3, h4, h5, h6⟩ := h
  subst hs
  refine ⟨?_, ?_, h3, ?_, ?_, ?_⟩ <;>
    simp [applyShock, h1, h2, h1 ▸ h2, dropKey_setA_self, h4, h5, h6]

theorem applyDelta_rel (m : String) (depth : ℕ) (st st' : LoopState) (p : String × ℚ)
    (h : MissingKeyRel m st st') :
    MissingKeyRel m (applyDelta depth st p) (applyDelta depth st' p) := by
  obtain ⟨h1, h2, h3, h4, h5, h6⟩ := h
  by_cases hp : p.1 = m
  · refine ⟨?_, ?_, h3, h4, ?_, ?_⟩
    · simp only [applyDelta, hp, h2, h1, h1 ▸ h2]
    · simp [applyDelta, hp, h2]
    · simp only [applyDelta, hp]
      rw [dropKey_setA_self, dropKey_setA_self]
      exact h5
    · simp only [applyDelta, hp]
      by_cases ho : (getA st.nodeOrders m).isSome <;>
        by_cases ho' : (getA st'.nodeOrders m).isSome <;>
        simp [ho, ho', dropKey_setA_self, h6]
  · have hD := getA_eq_of_dropKey_eq h5 p.1 hp
    have hO := getA_eq_of_dropKey_eq h6 p.1 hp
    refine ⟨?_, ?_, h3, h4, ?_, ?_⟩
    · simp only [applyDelta, h1]
    · simp only [applyDelta]
      cases hga : getA st.nodeMap p.1 with
      | none => exact h2
      | some node =>
        rw [getA_setA_ne _ _ _ _ (fun hh => hp hh.symm)]
        exact h2
    · simp only [applyDelta, hD]
      rw [dropKey_setA_ne m p.1 _ _ hp, dropKey_setA_ne m p.1 _ _ hp, h5]
    · simp only [applyDelta, hO]
      by_cases ho : (getA st'.nodeOrders p.1).isSome
      · simp only [ho, if_true]
        exact h6
      · simp only [ho, if_false, Bool.false_eq_true]
        rw [dropKey_setA_ne m p.1 _ _ hp, dropKey_setA_ne m p.1 _ _ hp, h6]

theorem foldl_applyDelta_rel (m : String) (depth : ℕ) (nd : List (String × ℚ))
    (st st' : LoopState) (h : MissingKeyRel m st st') :
    MissingKeyRel m (nd.foldl (applyDelta depth) st) (nd.foldl (applyDelta depth) st') := by
  induction nd generalizing st st' with
  | nil => exact h
  | cons p rest ih => exact ih _ _ (applyDelta_rel m depth st st' p h)

/-- `createStep` ignores phantom delta entries for ids outside the node map. -/
theorem createStep_rel (m : String) (stepNum : ℕ) (d₁ d₂ : AListV ℚ)
    (nm : AListV CausalNode) (ce : AListV (List String))
    (hm : getA nm m = none) (h : dropKey m d₁ = dropKey m d₂) :
    createStep stepNum d₁ nm ce = createStep stepNum d₂ nm ce := by
  unfold createStep
  have haff : ∀ d : AListV ℚ, stepAffectedNodes d nm ce
      = stepAffectedNodes (dropKey m d) nm ce := by
    intro d
    unfold stepAffectedNodes
    refine filterMap_dropKey _ m ?_ d
    intro δ
    simp [hm]
  rw [haff d₁, haff d₂, h]

theorem propagateLoop_rel (cfg : PropagationConfig) (ebs : AListV (List CausalEdge))
    (m : String) (hin : (getA ebs m).getD [] = []) (fuel depth : ℕ)
    (st st' : LoopState) (h : MissingKeyRel m st st') :
    MissingKeyRel m (propagateLoop cfg ebs depth fuel st)
      (propagateLoop cfg ebs depth fuel st') := by
  induction fuel generalizing depth st st' with
  | zero => exact h
  | succ fuel ih =>
    have hN : computeNext cfg ebs st.currentDeltas
        = computeNext cfg ebs st'.currentDeltas :=
      computeNext_inert_congr cfg ebs m hin h.2.2.2.1
    simp only [propagateLoop]
    rw [hN]
    by_cases hs : hasSignificantDelta cfg (computeNext cfg ebs st'.currentDeltas).1
    · simp only [hs, if_true]
      have hfold := foldl_applyDelta_rel m depth
        (computeNext cfg ebs st'.currentDeltas).1 st st' h
      refine ih _ _ _ ?_
      obtain ⟨g1, g2, g3, _, g5, g6⟩ := hfold
      exact ⟨g1, g2, by simp [g3, g1], by rfl, g5, g6⟩
    · simp only [hs, if_false, Bool.false_eq_true]
      exact h

theorem getA_buildNodeMap_none (nodes : List CausalNode) (m : String)
    (h : ∀ nd ∈ nodes, nd.id ≠ m) : getA (buildNodeMap nodes) m = none := by
  suffices haux : ∀ (acc : AListV CausalNode), getA acc m = none →
      getA (nodes.foldl
        (fun mp node => setA mp node.id { node with delta := 0, order := 0 }) acc) m
        = none by
    exact haux [] rfl
  induction nodes with
  | nil => exact fun acc hacc => hacc
  | cons node rest ih =>
    intro acc hacc
    rw [List.foldl_cons]
    refine ih (fun nd hnd => h nd (List.mem_cons_of_mem node hnd)) _ ?_
    rw [getA_setA_ne _ _ _ _ (Ne.symm (h node (List.mem_cons_self node rest)))]
    exact hacc

theorem mem_setA {α : Type} (l : AListV α) (k : String) (v : α) (p : String × α)
    (h : p ∈ setA l k v) : p ∈ l ∨ p = (k, v) := by
  induction l with
  | nil =>
    simp only [setA, List.mem_singleton] at h
    exact Or.inr h
  | cons q rest ih =>
    rcases q with ⟨k₀, w⟩
    by_cases hk : k₀ = k
    · simp only [setA, hk, if_true, ite_true, List.mem_cons] at h
      rcases h with h | h
      · exact Or.inr (by rw [h])
      · exact Or.inl (List.mem_cons_of_mem _ h)
    · simp only [setA, hk, if_false, ite_false, List.mem_cons] at h
      rcases h with h | h
      · exact Or.inl (by rw [h]; exact List.mem_cons_self _ _)
      · rcases ih h with h' | h'
        · exact Or.inl (List.mem_cons_of_mem _ h')
        · exact Or.inr h'

theorem getA_mem {α : Type} (l : AListV α) (k : String) (v : α)
    (h : getA l k = some v) : (k, v) ∈ l := by
  induction l with
  | nil => cases h
  | cons q rest ih =>
    rcases q with ⟨k₀, w⟩
    by_cases hk : k₀ = k
    · subst hk
      simp only [getA, if_true, ite_true] at h
      obtain rfl := Option.some.inj h
      exact List.mem_cons_self _ _
    · simp only [getA, hk, if_false, ite_false] at h
      exact List.mem_cons_of_mem _ (ih h)

/-- Every value of the node map carries the id of some input node. -/
def nodeMapIds (g : CausalGraph) (mp : AListV CausalNode) : Prop :=
  ∀ p ∈ mp, ∃ nd ∈ g.nodes, (p : String × CausalNode).2.id = nd.id

theorem buildNodeMap_ids (g : CausalGraph) : nodeMapIds g (buildNodeMap g.nodes) := by
  suffices haux : ∀ (nodes : List CausalNode) (acc : AListV CausalNode),
      (∀ node ∈ nodes, ∃ nd ∈ g.nodes, node.id = nd.id) → nodeMapIds g acc →
      nodeMapIds g (nodes.foldl
        (fun mp node => setA mp node.id { node with delta := 0, order := 0 }) acc) by
    exact haux g.nodes [] (fun node hn => ⟨node, hn, rfl⟩) (fun p hp => absurd hp (by simp))
  intro nodes
  induction nodes with
  | nil => exact fun acc _ hacc => hacc
  | cons node rest ih =>
    intro acc hsrc hacc
    rw [List.foldl_cons]
    refine ih _ (fun nd hnd => hsrc nd (List.mem_cons_of_mem node hnd)) ?_
    intro p hp
    rcases mem_setA _ _ _ _ hp with h | h
    · exact hacc p h
    · rw [h]
      exact hsrc node (List.mem_cons_self node rest)

theorem applyShock_ids (g : CausalGraph) (st : LoopState) (s : Shock)
    (h : nodeMapIds g st.nodeMap) : nodeMapIds g (applyShock st s).nodeMap := by
  intro p hp
  simp only [applyShock] at hp
  cases hga : getA st.nodeMap s.nodeId with
  | none =>
    rw [hga] at hp
    exact h p hp
  | some node =>
    rw [hga] at hp
    rcases mem_setA _ _ _ _ hp with h' | h'
    · exact h p h'
    · rw [h']
      exact h (s.nodeId, node) (getA_mem _ _ _ hga)

theorem applyDelta_ids (g : CausalGraph) (depth : ℕ) (st : LoopState) (p₀ : String × ℚ)
    (h : nodeMapIds g st.nodeMap) : nodeMapIds g (applyDelta depth st p₀).nodeMap := by
  intro p hp
  simp only [applyDelta] at hp
  cases hga : getA st.nodeMap p₀.1 with
  | none =>
    rw [hga] at hp
    exact h p hp
  | some node =>
    rw [hga] at hp
    rcases mem_setA _ _ _ _ hp with h' | h'
    · exact h p h'
    · rw [h']
      exact h (p₀.1, node) (getA_mem _ _ _ hga)

theorem foldl_applyShock_ids (g : CausalGraph) (shocks : List Shock) (st : LoopState)
    (h : nodeMapIds g st.nodeMap) : nodeMapIds g (shocks.foldl applyShock st).nodeMap := by
  induction shocks generalizing st with
  | nil => exact h
  | cons s rest ih => exact ih _ (applyShock_ids g st s h)

theorem foldl_applyDelta_ids (g : CausalGraph) (depth : ℕ) (nd : List (String × ℚ))
    (st : LoopState) (h : nodeMapIds g st.nodeMap) :
    nodeMapIds g (nd.foldl (applyDelta depth) st).nodeMap := by
  induction nd generalizing st with
  | nil => exact h
  | cons p rest ih => exact ih _ (applyDelta_ids g depth st p h)

theorem propagateLoop_ids (g : CausalGraph) (cfg : PropagationConfig)
    (ebs : AListV (List CausalEdge)) (fuel depth : ℕ) (st : LoopState)
    (h : nodeMapIds g st.nodeMap) :
    nodeMapIds g (propagateLoop cfg ebs depth fuel st).nodeMap := by
  induction fuel generalizing depth st with
  | zero => exact h
  | succ fuel ih =>
    rw [propagateLoop]
    by_cases hs : hasSignificantDelta cfg (computeNext cfg ebs st.currentDeltas).1
    · simp only [hs, if_true]
      exact ih _ _ (foldl_applyDelta_ids g _ _ _ h)
    · simp only [hs, if_false, Bool.false_eq_true]
      exact h

/-- C9 (amended): `propagate` tolerates malformed references.  A shock whose
`nodeId` matches no node and is not the source of any edge is fully inert:
the returned graph's nodes and the whole step trace equal the run without it
(only the auxiliary `nodeDeltas`/`nodeOrders` maps record the phantom id).
And a dangling edge target never becomes a node: every node of the returned
graph carries the id of an input node (`propagate` itself is a total
function, so no error is ever raised).  Full removal-invariance for a
dangling-target edge fails in general — the counterexample shows its phantom
contribution keeping the loop alive changes a real node's order. -/
theorem malformed_refs_tolerated (g : CausalGraph) (l₁ l₂ : List Shock) (s : Shock)
    (A : List Assumption) (cfg : PropagationConfig)
    (hnode : ∀ nd ∈ g.nodes, nd.id ≠ s.nodeId)
    (hedge : ∀ e ∈ g.edges, e.source ≠ s.nodeId) :
    ((propagate g (l₁ ++ s :: l₂) A cfg).graph.nodes
        = (propagate g (l₁ ++ l₂) A cfg).graph.nodes
      ∧ (propagate g (l₁ ++ s :: l₂) A cfg).steps
        = (propagate g (l₁ ++ l₂) A cfg).steps)
    ∧ ∀ (shocks : List Shock) (node' : CausalNode),
        node' ∈ (propagate g shocks A cfg).graph.nodes →
        ∃ nd ∈ g.nodes, node'.id = nd.id := by
  constructor
  · have hnm : getA (buildNodeMap g.nodes) s.nodeId = none :=
      getA_buildNodeMap_none g.nodes s.nodeId hnode
    have hin : (getA (buildEdgesBySource g.edges) s.nodeId).getD [] = [] := by
      rw [buildEBS_getD]
      refine List.filter_eq_nil.mpr ?_
      intro e he
      simp [hedge e he]
    have hrel0 : MissingKeyRel s.nodeId
        { nodeMap := buildNodeMap g.nodes, nodeDeltas := [], nodeOrders := [],
          steps := [], currentDeltas := [] }
        { nodeMap := buildNodeMap g.nodes, nodeDeltas := [], nodeOrders := [],
          steps := [], currentDeltas := [] } :=
      ⟨rfl, hnm, rfl, rfl, rfl, rfl⟩
    have hrel3 : MissingKeyRel s.nodeId
        (List.foldl applyShock (applyShock (List.foldl applyShock
          { nodeMap := buildNodeMap g.nodes, nodeDeltas := [], nodeOrders := [],
            steps := [], currentDeltas := [] } l₁) s) l₂)
        (List.foldl applyShock (List.foldl applyShock
          { nodeMap := buildNodeMap g.nodes, nodeDeltas := [], nodeOrders := [],
            steps := [], currentDeltas := [] } l₁) l₂) :=
      foldl_applyShock_rel s.nodeId l₂ _ _
        (applyShock_absorb s.nodeId _ _ s rfl
          (foldl_applyShock_rel s.nodeId l₁ _ _ hrel0))
    obtain ⟨g1, g2, g3, g4, g5, g6⟩ := hrel3
    have hc : createStep 0
        (List.foldl applyShock (applyShock (List.foldl applyShock
          { nodeMap := buildNodeMap g.nodes, nodeDeltas := [], nodeOrders := [],
            steps := [], currentDeltas := [] } l₁) s) l₂).currentDeltas
        (List.foldl applyShock (List.foldl applyShock
          { nodeMap := buildNodeMap g.nodes, nodeDeltas := [], nodeOrders := [],
            steps := [], currentDeltas := [] } l₁) l₂).nodeMap []
      = createStep 0
        (List.foldl applyShock (List.foldl applyShock
          { nodeMap := buildNodeMap g.nodes, nodeDeltas := [], nodeOrders := [],
            steps := [], currentDeltas := [] } l₁) l₂).currentDeltas
        (List.foldl applyShock (List.foldl applyShock
          { nodeMap := buildNodeMap g.nodes, nodeDeltas := [], nodeOrders := [],
            steps := [], currentDeltas := [] } l₁) l₂).nodeMap [] :=
      createStep_rel s.nodeId 0 _ _ _ [] (g1 ▸ g2) g4
    have hrel4 : MissingKeyRel s.nodeId
        { List.foldl applyShock (applyShock (List.foldl applyShock
            { nodeMap := buildNodeMap g.nodes, nodeDeltas := [], nodeOrders := [],
              steps := [], currentDeltas := [] } l₁) s) l₂ with
          steps := [createStep 0
            (List.foldl applyShock (applyShock (List.foldl applyShock
              { nodeMap := buildNodeMap g.nodes, nodeDeltas := [], nodeOrders := [],
                steps := [], currentDeltas := [] } l₁) s) l₂).currentDeltas
            (List.foldl applyShock (applyShock (List.foldl applyShock
              { nodeMap := buildNodeMap g.nodes, nodeDeltas := [], nodeOrders := [],
                steps := [], currentDeltas := [] } l₁) s) l₂).nodeMap []] }
        { List.foldl applyShock (List.foldl applyShock
            { nodeMap := buildNodeMap g.nodes, nodeDeltas := [], nodeOrders := [],
              steps := [], currentDeltas := [] } l₁) l₂ with
          steps := [createStep 0
            (List.foldl applyShock (List.foldl applyShock
              { nodeMap := buildNodeMap g.nodes, nodeDeltas := [], nodeOrders := [],
                steps := [], currentDeltas := [] } l₁) l₂).currentDeltas
            (List.foldl applyShock (List.foldl applyShock
              { nodeMap := buildNodeMap g.nodes, nodeDeltas := [], nodeOrders := [],
                steps := [], currentDeltas := [] } l₁) l₂).nodeMap []] } := by
      refine ⟨g1, g2, ?_, g4, g5, g6⟩
      show [_] = [_]
      rw [g1, hc]
    have hrel5 := propagateLoop_rel cfg (buildEdgesBySource g.edges) s.nodeId hin
      cfg.maxDepth 1 _ _ hrel4
    constructor
    · show (propagate g (l₁ ++ s :: l₂) A cfg).graph.nodes
        = (propagate g (l₁ ++ l₂) A cfg).graph.nodes
      simp only [propagate, List.foldl_append, List.foldl_cons]
      exact congrArg (List.map Prod.snd) hrel5.1
    · show (propagate g (l₁ ++ s :: l₂) A cfg).steps
        = (propagate g (l₁ ++ l₂) A cfg).steps
      simp only [propagate, List.foldl_append, List.foldl_cons]
      exact hrel5.2.2.1
  · intro shocks node' hmem
    simp only [propagate] at hmem
    obtain ⟨p, hp, hpe⟩ := List.mem_map.mp hmem
    have hids := propagateLoop_ids g cfg (buildEdgesBySource g.edges) cfg.maxDepth 1
      { List.foldl applyShock
          { nodeMap := buildNodeMap g.nodes, nodeDeltas := [], nodeOrders := [],
            steps := [], currentDeltas := [] } shocks with
        steps := [createStep 0
          (List.foldl applyShock
            { nodeMap := buildNodeMap g.nodes, nodeDeltas := [], nodeOrders := [],
              steps := [], currentDeltas := [] } shocks).currentDeltas
          (List.foldl applyShock
            { nodeMap := buildNodeMap g.nodes, nodeDeltas := [], nodeOrders := [],
              steps := [], currentDeltas := [] } shocks).nodeMap []] }
      (foldl_applyShock_ids g shocks
        { nodeMap := buildNodeMap g.nodes, nodeDeltas := [], nodeOrders := [],
          steps := [], currentDeltas := [] } (buildNodeMap_ids g))
    obtain ⟨nd, hnd, hid⟩ := hids p hp
    exact ⟨nd, hnd, hpe ▸ hid⟩

/-- A graph whose only edge hangs off the missing id `y`: node `b` exists,
`y` does not. -/
def c9GraphA : CausalGraph :=
  { nodes := [
      { id := "b", label := "B", category := "emissions", unit := "u", description := "",
        baselineValue := none, delta := 0, order := 0 }],
    edges := [
      { id := "e0", source := "y", target := "b", sign := 1, strength := 95/100,
        confidence := 9/10, rationale := "", lagSteps := 0 }] }

/-- Nodes `a`, `b`, `t` with cancelling edges into `t` and a dangling edge
`a → x` (`x` is no node and no edge source). -/
def c9GraphB : CausalGraph :=
  { nodes := [
      { id := "a", label := "A", category := "behavior", unit := "u", description := "",
        baselineValue := none, delta := 0, order := 0 },
      { id := "b", label := "B", category := "behavior", unit := "u", description := "",
        baselineValue := none, delta := 0, order := 0 },
      { id := "t", label := "T", category := "emissions", unit := "u", description := "",
        baselineValue := none, delta := 0, order := 0 }],
    edges := [
      { id := "e0", source := "a", target := "t", sign := 1, strength := 1/2,
        confidence := 9/10, rationale := "", lagSteps := 0 },
      { id := "e1", source := "b", target := "t", sign := -1, strength := 1/2,
        confidence := 9/10, rationale := "", lagSteps := 0 },
      { id := "e2", source := "a", target := "x", sign := 1, strength := 9/10,
        confidence := 9/10, rationale := "", lagSteps := 0 }] }

/-- `c9GraphB` with the dangling edge removed. -/
def c9GraphBPruned : CausalGraph :=
  { nodes := c9GraphB.nodes,
    edges := [
      { id := "e0", source := "a", target := "t", sign := 1, strength := 1/2,
        confidence := 9/10, rationale := "", lagSteps := 0 },
      { id := "e1", source := "b", target := "t", sign := -1, strength := 1/2,
        confidence := 9/10, rationale := "", lagSteps := 0 }] }

/-- Counterexample to C9 as stated.  (i) A shock on the missing id `y` is not
inert when `y` is the source of an edge: node `b` ends with delta
`1 · 0.95 · 0.8 = 0.76` instead of `0`.  (ii) Even a dangling-target edge
whose target has no outgoing edges is not removable: its phantom
contribution keeps the loop significant, so node `t` (whose incoming
contributions cancel to `0`) gets order `2` with the edge and order `0`
without it. -/
theorem malformed_refs_counterexample :
    ((((propagate c9GraphA [{ nodeId := "y", delta := 1, unit := "u" }] []
          DEFAULT_CONFIG).graph.nodes.find? (fun n => n.id = "b")).map
        (fun n => n.delta) = some (19/25))
      ∧ (((propagate c9GraphA [] [] DEFAULT_CONFIG).graph.nodes.find?
          (fun n => n.id = "b")).map (fun n => n.delta) = some 0)
      ∧ ¬ ((propagate c9GraphA [{ nodeId := "y", delta := 1, unit := "u" }] []
            DEFAULT_CONFIG).graph.nodes
          = (propagate c9GraphA [] [] DEFAULT_CONFIG).graph.nodes))
    ∧ ((((propagate c9GraphB [{ nodeId := "a", delta := 1, unit := "u" },
            { nodeId := "b", delta := 1, unit := "u" }] []
          DEFAULT_CONFIG).graph.nodes.find? (fun n => n.id = "t")).map
        (fun n => n.order) = some 2)
      ∧ (((propagate c9GraphBPruned [{ nodeId := "a", delta := 1, unit := "u" },
            { nodeId := "b", delta := 1, unit := "u" }] []
          DEFAULT_CONFIG).graph.nodes.find? (fun n => n.id = "t")).map
        (fun n => n.order) = some 0)
      ∧ ¬ ((propagate c9GraphB [{ nodeId := "a", delta := 1, unit := "u" },
            { nodeId := "b", delta := 1, unit := "u" }] []
          DEFAULT_CONFIG).graph.nodes
          = (propagate c9GraphBPruned [{ nodeId := "a", delta := 1, unit := "u" },
            { nodeId := "b", delta := 1, unit := "u" }] []
          DEFAULT_CONFIG).graph.nodes)) := by
  refine ⟨⟨?_, ?_, ?_⟩, ?_, ?_, ?_⟩ <;>
    norm_num +decide [c9GraphA, c9GraphB, c9GraphBPruned, propagate, buildNodeMap,
      buildEdgesBySource, buildAssumptionMap, applyShock, createStep, stepAffectedNodes,
      cumulativeTotals, propagateLoop, computeNext, processSource, processEdge,
      hasSignificantDelta, applyDelta, mathAbs, getA, setA, DEFAULT_CONFIG]

/-- Witness for C9 (amended) on `witnessGraph`: the phantom shock on `y`
leaves the returned nodes unchanged. -/
theorem malformed_refs_tolerated_witness :
    (propagate witnessGraph
        ([] ++ { nodeId := "y", delta := 1, unit := "u" }
          :: [{ nodeId := "a", delta := 1, unit := "u" }]) [] DEFAULT_CONFIG).graph.nodes
      = (propagate witnessGraph ([] ++ [{ nodeId := "a", delta := 1, unit := "u" }]) []
          DEFAULT_CONFIG).graph.nodes :=
  ((malformed_refs_tolerated witnessGraph [] [{ nodeId := "a", delta := 1, unit := "u" }]
      { nodeId := "y", delta := 1, unit := "u" } [] DEFAULT_CONFIG
      (by decide) (by decide)).1).1

end EcoLogic
